import Mathlib

/-!
Verification of the SmartRideBooking dispatch core
(`backend/flask-api/algorithms/{city_graph,pathfinding,driver_matching,simulation}.py`)
against its natural-language specification.

The Python sources are shallowly embedded here:

* Python `float` values are modelled as exact rationals (`ℚ`), except where the
  code can produce `float('inf')`, which is modelled by the two-constructor type
  `Pyf` (a finite rational or infinity).
* Python `dict`s are modelled as insertion-ordered association lists
  (`List (String × α)`), with lookup of the first matching key and
  replace-in-place insertion, matching CPython's ordered-dict semantics.
* `haversine_distance` computes with transcendental functions (`sin`, `cos`,
  `asin`, `sqrt`) on floats; it is abstracted as an explicit function parameter
  `hdist : ℚ × ℚ → ℚ × ℚ → ℚ` wherever the code calls it.
* Python exceptions (`KeyError`, `ValueError`, ...) are modelled by the error
  type `PyErr`; functions that can raise return `Except PyErr α`, and methods
  that mutate state before possibly raising return the mutated state next to
  the `Except` value.
* `Optional[str]` node-id fields are embedded as `String`, with `""` standing
  for Python `None`; this is faithful for truthiness tests (`if not x:`)
  because both `None` and `""` are falsy and all node ids in the repository
  are nonempty strings.
* Rational arithmetic is written with the wrappers `qadd`, `qsub`, `qmul`,
  `qdiv` below, which are definitionally kernel-reducible (Mathlib's `Rat.add`
  etc. are `@[irreducible]`); each wrapper is proved equal to the
  corresponding field operation.
-/

/-- Kernel-reducible addition on `ℚ` (same value as `a + b`). -/
def qadd (a b : ℚ) : ℚ := Rat.divInt (a.num * b.den + b.num * a.den) (a.den * b.den)

/-- Kernel-reducible subtraction on `ℚ` (same value as `a - b`). -/
def qsub (a b : ℚ) : ℚ := Rat.divInt (a.num * b.den - b.num * a.den) (a.den * b.den)

/-- Kernel-reducible multiplication on `ℚ` (same value as `a * b`). -/
def qmul (a b : ℚ) : ℚ := Rat.divInt (a.num * b.num) (a.den * b.den)

/-- Kernel-reducible division on `ℚ` (same value as `a / b`, with `a / 0 = 0`). -/
def qdiv (a b : ℚ) : ℚ := Rat.divInt (a.num * b.den) (a.den * b.num)

theorem qden_cast_ne_zero (a : ℚ) : ((a.den : ℚ)) ≠ 0 :=
  Nat.cast_ne_zero.mpr a.den_nz

@[simp] theorem qadd_eq (a b : ℚ) : qadd a b = a + b := by
  rw [qadd, Rat.divInt_eq_div]
  push_cast
  conv_rhs => rw [← Rat.num_div_den a, ← Rat.num_div_den b]
  field_simp

@[simp] theorem qsub_eq (a b : ℚ) : qsub a b = a - b := by
  rw [qsub, Rat.divInt_eq_div]
  push_cast
  conv_rhs => rw [← Rat.num_div_den a, ← Rat.num_div_den b]
  field_simp
  ring

@[simp] theorem qmul_eq (a b : ℚ) : qmul a b = a * b := by
  rw [qmul, Rat.divInt_eq_div]
  push_cast
  conv_rhs => rw [← Rat.num_div_den a, ← Rat.num_div_den b]
  field_simp

@[simp] theorem qdiv_eq (a b : ℚ) : qdiv a b = a / b := by
  rcases eq_or_ne b 0 with hb | hb
  · subst hb; simp [qdiv, Rat.divInt_eq_div]
  · have hbn : ((b.num : ℚ)) ≠ 0 := by
      exact_mod_cast Rat.num_ne_zero.mpr hb
    rw [qdiv, Rat.divInt_eq_div]
    push_cast
    conv_rhs => rw [← Rat.num_div_den a, ← Rat.num_div_den b]
    rw [div_div_div_eq]

/-- Model of a Python `float` that may be `float('inf')`: either a finite
rational or infinity.  (The code never produces `-inf` or `nan`.) -/
inductive Pyf where
  | q (x : ℚ)
  | inf
  deriving DecidableEq, Repr

namespace Pyf

/-- Addition, with `inf + x = x + inf = inf` as for Python floats. -/
def add : Pyf → Pyf → Pyf
  | inf, _ => inf
  | _, inf => inf
  | q a, q b => q (qadd a b)

/-- Strict comparison `a < b`, as for Python floats (`inf < inf` is `False`). -/
def ltb : Pyf → Pyf → Bool
  | q a, q b => a < b
  | q _, inf => true
  | inf, _ => false

/-- Comparison `a <= b`, as for Python floats. -/
def leb : Pyf → Pyf → Bool
  | q a, q b => a ≤ b
  | _, inf => true
  | inf, q _ => false

/-- Multiplication by a finite nonzero rational scale; `inf * r = inf`.
Matches Python for the positive scales it is used with. -/
def mulQ : Pyf → ℚ → Pyf
  | inf, _ => inf
  | q a, r => q (qmul a r)

end Pyf

/-- Floor of a rational, kernel-reducible (`Int.fdiv` of numerator by
denominator). -/
def qfloor (x : ℚ) : ℤ := Int.fdiv x.num (x.den : ℤ)

theorem qfloor_eq (x : ℚ) : qfloor x = ⌊x⌋ := by
  rw [qfloor, Rat.floor_def, Int.fdiv_eq_ediv _ (by positivity)]

/-- Truncation toward zero of a rational, modelling Python `int(x)`. -/
def qtrunc (x : ℚ) : ℤ := Int.tdiv x.num (x.den : ℤ)

/-- Banker's rounding to an integer, modelling Python's `round` on exact
values (round half to even). -/
def roundHalfEven (x : ℚ) : ℤ :=
  let f := qfloor x
  let r := qsub x (Rat.divInt f 1)
  if r < mkRat 1 2 then f
  else if mkRat 1 2 < r then f + 1
  else if f % 2 = 0 then f else f + 1

/-- Python `round(x, 2)` on exact rational values. -/
def pyRound2 (x : ℚ) : ℚ := qdiv (Rat.divInt (roundHalfEven (qmul x 100)) 1) 100

/-- Python `round(x, 2)` lifted to possibly-infinite floats
(`round(inf, 2) == inf`). -/
def Pyf.round2 : Pyf → Pyf
  | .q x => .q (pyRound2 x)
  | .inf => .inf

/-- Lookup in an insertion-ordered association list (Python `d.get(k)` /
`k in d`): first entry with the given key. -/
def dictLookup {α : Type} : List (String × α) → String → Option α
  | [], _ => none
  | (k', v') :: rest, k => if k' = k then some v' else dictLookup rest k

/-- Insertion into an insertion-ordered association list (Python
`d[k] = v`): replaces the value in place if the key is present, else
appends the new entry, as CPython dicts do. -/
def dictInsert {α : Type} : List (String × α) → String → α → List (String × α)
  | [], k, v => [(k, v)]
  | (k', v') :: rest, k, v =>
    if k' = k then (k, v) :: rest else (k', v') :: dictInsert rest k v

theorem dictLookup_insert_self {α : Type} (l : List (String × α)) (k : String) (v : α) :
    dictLookup (dictInsert l k v) k = some v := by
  induction l with
  | nil => simp [dictInsert, dictLookup]
  | cons e rest ih =>
    by_cases h : e.1 = k
    · simp [dictInsert, dictLookup, h]
    · simp [dictInsert, dictLookup, h, ih]

theorem dictLookup_insert_ne {α : Type} (l : List (String × α)) (k k' : String) (v : α)
    (h : k ≠ k') : dictLookup (dictInsert l k v) k' = dictLookup l k' := by
  induction l with
  | nil => simp [dictInsert, dictLookup, h]
  | cons e rest ih =>
    by_cases he : e.1 = k
    · simp [dictInsert, dictLookup, he, h]
    · simp only [dictInsert, dictLookup, if_neg he]
      by_cases he' : e.1 = k' <;> simp [he', ih]

theorem dictLookup_insert_isSome {α : Type} (l : List (String × α)) (k k' : String) (v : α)
    (h : (dictLookup l k').isSome) : (dictLookup (dictInsert l k v) k').isSome := by
  by_cases hk : k = k'
  · subst hk; rw [dictLookup_insert_self]; rfl
  · rwa [dictLookup_insert_ne _ _ _ _ hk]

/-- Lexicographic `<` on strings by Unicode code points, kernel-reducible;
models Python `str` comparison used by `heapq` on `(cost, node_id)` tuples. -/
def strLtb (a b : String) : Bool :=
  let rec go : List Char → List Char → Bool
    | [], [] => false
    | [], _ :: _ => true
    | _ :: _, [] => false
    | c :: cs, d :: ds =>
      if c.val < d.val then true else if d.val < c.val then false else go cs ds
  go a.data b.data

/-- Python exceptions raised by the embedded code. `hang` models a `while`
loop that does not terminate (possible in `reconstruct_path` when the
predecessor map is cyclic, which negative edge weights could cause). -/
inductive PyErr where
  | keyError (key : String)
  | valueError (msg : String)
  | attributeError
  | zeroDivision
  | indexError
  | typeError
  | hang
  deriving DecidableEq, Repr

instance {ε α : Type} [DecidableEq ε] [DecidableEq α] : DecidableEq (Except ε α) := fun x y =>
  match x, y with
  | .ok a, .ok b => decidable_of_iff (a = b) (by simp)
  | .error e, .error f => decidable_of_iff (e = f) (by simp)
  | .ok _, .error _ => isFalse (by simp)
  | .error _, .ok _ => isFalse (by simp)

/-- `city_graph.CityNode`: a node with coordinates and an insertion-ordered
adjacency dict `neighbors : neighbor_id -> (distance, time)`. -/
structure CityNode where
  id : String
  lat : ℚ
  lng : ℚ
  name : String
  neighbors : List (String × (ℚ × ℚ))
  deriving DecidableEq, Repr

namespace CityNode

/-- `CityNode.__init__` (with the `name or f"Node {node_id}"` default). -/
def init (node_id : String) (lat lng : ℚ) (name : Option String) : CityNode :=
  { id := node_id, lat := lat, lng := lng,
    name := match name with
      | some n => if n = "" then "Node " ++ node_id else n
      | none => "Node " ++ node_id,
    neighbors := [] }

/-- `CityNode.add_neighbor`. -/
def add_neighbor (n : CityNode) (neighbor_id : String) (distance time : ℚ) : CityNode :=
  { n with neighbors := dictInsert n.neighbors neighbor_id (distance, time) }

/-- `CityNode.get_neighbor_cost`: `(inf, inf)` for a missing neighbor. -/
def get_neighbor_cost (n : CityNode) (neighbor_id : String) : Pyf × Pyf :=
  match dictLookup n.neighbors neighbor_id with
  | some (d, t) => (.q d, .q t)
  | none => (.inf, .inf)

end CityNode

/-- `city_graph.CityGraph`: nodes as an insertion-ordered dict
`node_id -> CityNode`. -/
structure CityGraph where
  nodes : List (String × CityNode)
  deriving DecidableEq, Repr

namespace CityGraph

/-- `CityGraph.__init__`. -/
def init : CityGraph := { nodes := [] }

/-- `CityGraph.add_node`. -/
def add_node (g : CityGraph) (node : CityNode) : CityGraph :=
  { g with nodes := dictInsert g.nodes node.id node }

/-- `CityGraph.add_edge`: inserts the forward (and optionally backward)
adjacency entries, but only when both endpoints are present. -/
def add_edge (g : CityGraph) (node1_id node2_id : String) (distance time : ℚ)
    (bidirectional : Bool) : CityGraph :=
  match dictLookup g.nodes node1_id, dictLookup g.nodes node2_id with
  | some n1, some _ =>
    let g1 : CityGraph :=
      { g with nodes := dictInsert g.nodes node1_id (n1.add_neighbor node2_id distance time) }
    if bidirectional then
      match dictLookup g1.nodes node2_id with
      | some n2' =>
        { g1 with nodes := dictInsert g1.nodes node2_id (n2'.add_neighbor node1_id distance time) }
      | none => g1
    else g1
  | _, _ => g

/-- `CityGraph.get_node`. -/
def get_node (g : CityGraph) (node_id : String) : Option CityNode :=
  dictLookup g.nodes node_id

/-- `CityGraph.get_nodes` (the node dict itself). -/
def get_nodes (g : CityGraph) : List (String × CityNode) := g.nodes

/-- `CityGraph.get_nearest_node`: linear scan keeping the first strict
minimum of the (abstracted) haversine distance; `(None, inf)` when the graph
has no nodes.  `none` in the first component embeds Python `None`. -/
def get_nearest_node (hdist : ℚ × ℚ → ℚ × ℚ → ℚ) (g : CityGraph) (lat lng : ℚ) :
    Option String × Pyf :=
  g.nodes.foldl
    (fun acc kn =>
      let distance := hdist (lat, lng) (kn.2.lat, kn.2.lng)
      if Pyf.ltb (.q distance) acc.2 then (some kn.1, .q distance) else acc)
    (none, .inf)

end CityGraph

/-- The JSON payload written by `CityGraph.save_to_file` and read by
`CityGraph.load_from_file` (file I/O itself is outside the embedding: we
model the serialized content).  `efrom`/`eto` are the JSON keys
`"from"`/`"to"`. -/
structure EdgeData where
  efrom : String
  eto : String
  distance : ℚ
  time : ℚ
  deriving DecidableEq, Repr

/-- Serialized node record (JSON keys `id`, `lat`, `lng`, `name`). -/
structure NodeData where
  id : String
  lat : ℚ
  lng : ℚ
  name : String
  deriving DecidableEq, Repr

/-- Serialized graph: the `"nodes"` JSON object (insertion-ordered) and the
`"edges"` JSON array. -/
structure GraphData where
  nodes : List (String × NodeData)
  edges : List EdgeData
  deriving DecidableEq, Repr

namespace CityGraph

/-- The serialization step of `CityGraph.save_to_file`: one node record per
dict entry, and one directed edge record per adjacency entry, in iteration
order. -/
def save_graph_data (g : CityGraph) : GraphData :=
  { nodes := g.nodes.map (fun kn =>
      (kn.1, { id := kn.2.id, lat := kn.2.lat, lng := kn.2.lng, name := kn.2.name })),
    edges := g.nodes.flatMap (fun kn =>
      kn.2.neighbors.map (fun nb =>
        { efrom := kn.1, eto := nb.1, distance := nb.2.1, time := nb.2.2 })) }

/-- The deserialization step of `CityGraph.load_from_file`: add all nodes,
then add every stored edge with `bidirectional=False`. -/
def load_graph_data (d : GraphData) : CityGraph :=
  let g := d.nodes.foldl
    (fun g kn => g.add_node (CityNode.init kn.2.id kn.2.lat kn.2.lng (some kn.2.name)))
    CityGraph.init
  d.edges.foldl
    (fun g e => g.add_edge e.efrom e.eto e.distance e.time false)
    g

end CityGraph

/-- Score dict of `dijkstra_algorithm` / `a_star_algorithm`
(`node_id -> float`, where the float may be `inf`). -/
abbrev ScoreMap := List (String × Pyf)

/-- Predecessor dict (`node_id -> Optional[node_id]`). -/
abbrev PredMap := List (String × Option String)

/-- The `heapq` priority queue of `(cost, node_id)` tuples, as a list of its
entries; `popMin` removes the least entry under Python tuple ordering. -/
abbrev SearchQueue := List (Pyf × String)

/-- Python tuple comparison `(cost1, id1) < (cost2, id2)` for heap entries. -/
def entryLtb (a b : Pyf × String) : Bool :=
  if Pyf.ltb a.1 b.1 then true
  else if Pyf.ltb b.1 a.1 then false
  else strLtb a.2 b.2

/-- Pop the minimum entry of the heap (the first among equal minima; equal
minima are identical tuples, so the choice is immaterial). -/
def popMin (queue : SearchQueue) : Option ((Pyf × String) × SearchQueue) :=
  match queue with
  | [] => none
  | e :: rest =>
    let m := rest.foldl (fun acc x => if entryLtb x acc then x else acc) e
    some (m, queue.erase m)

/-- `cost = distance if cost_type == 'distance' else time`. -/
def costSel (cost_type : String) (dt : ℚ × ℚ) : ℚ :=
  if cost_type = "distance" then dt.1 else dt.2

/-- `pathfinding.calculate_heuristic` (great-circle distance, scaled by 2 for
`time`; the great-circle function itself is the abstracted parameter
`hdist`). -/
def calculate_heuristic (hdist : ℚ × ℚ → ℚ × ℚ → ℚ) (node goal_node : CityNode)
    (cost_type : String) : ℚ :=
  let distance := hdist (node.lat, node.lng) (goal_node.lat, goal_node.lng)
  if cost_type = "distance" then distance else qmul distance 2

/-- The neighbor-relaxation `for` loop of `dijkstra_algorithm`.  A lookup of
a node id absent from `distances` raises `KeyError` as in Python. -/
def dijkstraRelax (ct : String) (current_id : String) :
    List (String × (ℚ × ℚ)) → ScoreMap × PredMap × SearchQueue →
    Except PyErr (ScoreMap × PredMap × SearchQueue)
  | [], st => .ok st
  | (neighbor_id, w) :: rest, (distances, predecessors, queue) =>
    let cost := costSel ct w
    match dictLookup distances current_id with
    | none => .error (.keyError current_id)
    | some dcur =>
      let new_distance := dcur.add (.q cost)
      match dictLookup distances neighbor_id with
      | none => .error (.keyError neighbor_id)
      | some dn =>
        if Pyf.ltb new_distance dn then
          dijkstraRelax ct current_id rest
            (dictInsert distances neighbor_id new_distance,
             dictInsert predecessors neighbor_id (some current_id),
             queue ++ [(new_distance, neighbor_id)])
        else
          dijkstraRelax ct current_id rest (distances, predecessors, queue)

/-- Fuel bound for the search loops.  Every heap insertion beyond the initial
one happens while a node is first processed, so the total number of pops is
at most `1 + Σ out-degrees`; this fuel is therefore never exhausted. -/
def searchFuel (g : CityGraph) : ℕ :=
  1 + g.nodes.length + (g.nodes.map (fun kn => kn.2.neighbors.length)).sum

/-- The `while priority_queue` loop of `dijkstra_algorithm`. -/
def dijkstraLoop (g : CityGraph) (goal_id ct : String) :
    ℕ → ScoreMap × PredMap × List String × SearchQueue → Except PyErr (ScoreMap × PredMap)
  | 0, (distances, predecessors, _, _) => .ok (distances, predecessors)
  | fuel+1, (distances, predecessors, visited, queue) =>
    match popMin queue with
    | none => .ok (distances, predecessors)
    | some ((_, current_id), rest) =>
      if current_id ∈ visited then
        dijkstraLoop g goal_id ct fuel (distances, predecessors, visited, rest)
      else
        let visited' := visited ++ [current_id]
        if current_id = goal_id then .ok (distances, predecessors)
        else
          match g.get_node current_id with
          | none => dijkstraLoop g goal_id ct fuel (distances, predecessors, visited', rest)
          | some current_node =>
            match dijkstraRelax ct current_id current_node.neighbors
                (distances, predecessors, rest) with
            | .error e => .error e
            | .ok st => dijkstraLoop g goal_id ct fuel (st.1, st.2.1, visited', st.2.2)

/-- `pathfinding.dijkstra_algorithm`.  (ValueError messages are embedded
without the quote characters of the Python text.) -/
def dijkstra_algorithm (g : CityGraph) (start_id goal_id : String)
    (cost_type : String) : Except PyErr (ScoreMap × PredMap) :=
  if ¬(cost_type = "time" ∨ cost_type = "distance") then
    .error (.valueError "cost_type must be time or distance")
  else
    let distances := dictInsert (g.get_nodes.map (fun kn => (kn.1, Pyf.inf))) start_id (.q 0)
    let predecessors : PredMap := g.get_nodes.map (fun kn => (kn.1, none))
    dijkstraLoop g goal_id cost_type (searchFuel g)
      (distances, predecessors, [], [(.q 0, start_id)])

/-- The neighbor-relaxation `for` loop of `a_star_algorithm`. -/
def aStarRelax (hdist : ℚ × ℚ → ℚ × ℚ → ℚ) (g : CityGraph) (goal_node : CityNode)
    (ct : String) (current_id : String) :
    List (String × (ℚ × ℚ)) → ScoreMap × ScoreMap × PredMap × SearchQueue →
    Except PyErr (ScoreMap × ScoreMap × PredMap × SearchQueue)
  | [], st => .ok st
  | (neighbor_id, w) :: rest, (g_scores, f_scores, predecessors, queue) =>
    let cost := costSel ct w
    match dictLookup g_scores current_id with
    | none => .error (.keyError current_id)
    | some gcur =>
      let tentative_g_score := gcur.add (.q cost)
      match dictLookup g_scores neighbor_id with
      | none => .error (.keyError neighbor_id)
      | some gn =>
        if Pyf.ltb tentative_g_score gn then
          let predecessors1 := dictInsert predecessors neighbor_id (some current_id)
          let g_scores1 := dictInsert g_scores neighbor_id tentative_g_score
          match g.get_node neighbor_id with
          | none => .error .attributeError
          | some neighbor_node =>
            let heuristic := calculate_heuristic hdist neighbor_node goal_node ct
            let f := tentative_g_score.add (.q heuristic)
            aStarRelax hdist g goal_node ct current_id rest
              (g_scores1, dictInsert f_scores neighbor_id f, predecessors1,
               queue ++ [(f, neighbor_id)])
        else
          aStarRelax hdist g goal_node ct current_id rest
            (g_scores, f_scores, predecessors, queue)

/-- The `while priority_queue` loop of `a_star_algorithm`. -/
def aStarLoop (hdist : ℚ × ℚ → ℚ × ℚ → ℚ) (g : CityGraph) (goal_node : CityNode)
    (goal_id ct : String) :
    ℕ → ScoreMap × ScoreMap × PredMap × List String × SearchQueue →
    Except PyErr (ScoreMap × PredMap)
  | 0, (g_scores, _, predecessors, _, _) => .ok (g_scores, predecessors)
  | fuel+1, (g_scores, f_scores, predecessors, visited, queue) =>
    match popMin queue with
    | none => .ok (g_scores, predecessors)
    | some ((_, current_id), rest) =>
      if current_id ∈ visited then
        aStarLoop hdist g goal_node goal_id ct fuel
          (g_scores, f_scores, predecessors, visited, rest)
      else
        let visited' := visited ++ [current_id]
        if current_id = goal_id then .ok (g_scores, predecessors)
        else
          match g.get_node current_id with
          | none =>
            aStarLoop hdist g goal_node goal_id ct fuel
              (g_scores, f_scores, predecessors, visited', rest)
          | some current_node =>
            match aStarRelax hdist g goal_node ct current_id current_node.neighbors
                (g_scores, f_scores, predecessors, rest) with
            | .error e => .error e
            | .ok st =>
              aStarLoop hdist g goal_node goal_id ct fuel
                (st.1, st.2.1, st.2.2.1, visited', st.2.2.2)

/-- `pathfinding.a_star_algorithm`. -/
def a_star_algorithm (hdist : ℚ × ℚ → ℚ × ℚ → ℚ) (g : CityGraph)
    (start_id goal_id : String) (cost_type : String) :
    Except PyErr (ScoreMap × PredMap) :=
  if ¬(cost_type = "time" ∨ cost_type = "distance") then
    .error (.valueError "cost_type must be time or distance")
  else
    match g.get_node goal_id with
    | none => .error (.valueError ("Goal node " ++ goal_id ++ " not found in graph"))
    | some goal_node =>
      let g_scores := dictInsert (g.get_nodes.map (fun kn => (kn.1, Pyf.inf))) start_id (.q 0)
      let f_scores0 : ScoreMap := g.get_nodes.map (fun kn => (kn.1, Pyf.inf))
      match g.get_node start_id with
      | none => .error (.valueError ("Start node " ++ start_id ++ " not found in graph"))
      | some start_node =>
        let heuristic := calculate_heuristic hdist start_node goal_node cost_type
        let f_scores := dictInsert f_scores0 start_id (.q heuristic)
        let predecessors : PredMap := g.get_nodes.map (fun kn => (kn.1, none))
        aStarLoop hdist g goal_node goal_id cost_type (searchFuel g)
          (g_scores, f_scores, predecessors, [], [(.q heuristic, start_id)])

/-- The `while current_id != start_id` loop of `reconstruct_path`.  Fuel
exhaustion (`hang`) models a non-terminating chase of a cyclic predecessor
map; a stored Python `None` is dereferenced as a key on the next iteration,
raising `KeyError` (embedded as the key `"None"`). -/
def reconstructLoop (predecessors : PredMap) (start_id : String) :
    ℕ → String → List String → Except PyErr (List String)
  | 0, _, _ => .error .hang
  | fuel+1, current_id, path =>
    if current_id = start_id then .ok path
    else
      let path1 := path ++ [current_id]
      match dictLookup predecessors current_id with
      | none => .error (.keyError current_id)
      | some (some p) => reconstructLoop predecessors start_id fuel p path1
      | some none => .error (.keyError "None")

/-- `pathfinding.reconstruct_path`. -/
def reconstruct_path (predecessors : PredMap) (start_id goal_id : String) :
    Except PyErr (List String) :=
  match dictLookup predecessors goal_id with
  | none => .error (.keyError goal_id)
  | some pg =>
    if pg = none ∧ start_id ≠ goal_id then .ok []
    else
      match reconstructLoop predecessors start_id (predecessors.length + 1) goal_id [] with
      | .error e => .error e
      | .ok path => .ok ((path ++ [start_id]).reverse)

/-- An entry of the `"nodes"` list returned by `get_path_details`. -/
structure NodeInfo where
  id : String
  lat : ℚ
  lng : ℚ
  name : String
  deriving DecidableEq, Repr

/-- An entry of the `"segments"` list returned by `get_path_details`
(`sfrom`/`sto` are the dict keys `"from"`/`"to"`). -/
structure SegInfo where
  sfrom : String
  sto : String
  distance : Pyf
  time : Pyf
  deriving DecidableEq, Repr

/-- A value of the heterogeneous result dicts built by the pathfinding
module.  `preds` never occurs in a built dict; it is the shape
`reconstruct_path` would require if a `"predecessors"` entry existed. -/
inductive PyVal where
  | str (s : String)
  | num (x : Pyf)
  | nodeList (l : List NodeInfo)
  | segList (l : List SegInfo)
  | preds (p : PredMap)
  deriving DecidableEq, Repr

/-- The `for i in range(len(path) - 1)` aggregation loop of
`get_path_details`: segments whose endpoints do not both resolve are
skipped (`continue`). -/
def pathDetailsLoop (g : CityGraph) :
    List String → List NodeInfo × Pyf × Pyf × List SegInfo →
    List NodeInfo × Pyf × Pyf × List SegInfo
  | current_id :: next_id :: rest, (nodes, total_distance, total_time, segments) =>
    match g.get_node current_id, g.get_node next_id with
    | some current_node, some _next_node =>
      let nodes1 := nodes ++
        [⟨current_node.id, current_node.lat, current_node.lng, current_node.name⟩]
      let cost := current_node.get_neighbor_cost next_id
      pathDetailsLoop g (next_id :: rest)
        (nodes1, total_distance.add cost.1, total_time.add cost.2,
         segments ++ [⟨current_id, next_id, cost.1, cost.2⟩])
    | _, _ => pathDetailsLoop g (next_id :: rest) (nodes, total_distance, total_time, segments)
  | _, st => st

/-- `pathfinding.get_path_details`. -/
def get_path_details (g : CityGraph) (path : List String) : List (String × PyVal) :=
  if path.length < 2 then
    [("nodes", .nodeList []), ("total_distance", .num (.q 0)),
     ("total_time", .num (.q 0)), ("segments", .segList [])]
  else
    let st := pathDetailsLoop g path ([], .q 0, .q 0, [])
    let nodes1 :=
      match path.getLast? with
      | some last_id =>
        match g.get_node last_id with
        | some last_node =>
          st.1 ++ [⟨last_node.id, last_node.lat, last_node.lng, last_node.name⟩]
        | none => st.1
      | none => st.1
    [("nodes", .nodeList nodes1), ("total_distance", .num st.2.1.round2),
     ("total_time", .num st.2.2.1.round2), ("segments", .segList st.2.2.2)]

/-- `pathfinding.find_optimal_path`. -/
def find_optimal_path (hdist : ℚ × ℚ → ℚ × ℚ → ℚ) (g : CityGraph)
    (start_id goal_id : String) (algorithm cost_type : String) :
    Except PyErr (List (String × PyVal)) :=
  if ¬(algorithm = "dijkstra" ∨ algorithm = "a_star") then
    .error (.valueError "algorithm must be dijkstra or a_star")
  else if ¬(cost_type = "time" ∨ cost_type = "distance") then
    .error (.valueError "cost_type must be time or distance")
  else
    match (if algorithm = "dijkstra" then dijkstra_algorithm g start_id goal_id cost_type
           else a_star_algorithm hdist g start_id goal_id cost_type) with
    | .error e => .error e
    | .ok (_, predecessors) =>
      match reconstruct_path predecessors start_id goal_id with
      | .error e => .error e
      | .ok path =>
        let path_details := get_path_details g path
        .ok (dictInsert (dictInsert path_details "algorithm" (.str algorithm))
          "cost_type" (.str cost_type))

/-- `driver_matching.DriverStatus`. -/
inductive DriverStatus where
  | available
  | busy
  | offline
  | on_trip
  | on_break
  deriving DecidableEq, Repr

/-- The `DriverStatus(status)` enum constructor: `ValueError` on a string
outside the closed status set. -/
def DriverStatus.ofString : String → Except PyErr DriverStatus
  | "available" => .ok .available
  | "busy" => .ok .busy
  | "offline" => .ok .offline
  | "on_trip" => .ok .on_trip
  | "on_break" => .ok .on_break
  | s => .error (.valueError (s ++ " is not a valid DriverStatus"))

/-- `driver_matching.Driver`.  `nearest_node_id` is an `Optional[str]`
embedded as `String` with `""` for `None`. -/
structure Driver where
  id : String
  name : String
  current_location : ℚ × ℚ
  nearest_node_id : String
  status : DriverStatus
  vehicle_type : String
  rating : ℚ
  total_trips : ℤ
  deriving DecidableEq, Repr

/-- `driver_matching.RideRequest`.  The node-id fields are `Optional[str]`
embedded as `String` with `""` for `None`; `dropoff_location` is an optional
coordinate pair. -/
structure RideRequest where
  id : String
  user_id : String
  pickup_location : ℚ × ℚ
  pickup_node_id : String
  dropoff_location : Option (ℚ × ℚ)
  dropoff_node_id : String
  vehicle_type : String
  timestamp : ℚ
  deriving DecidableEq, Repr

/-- `driver_matching.DriverMatcher`: the city graph and the driver dict. -/
structure DriverMatcher where
  city_graph : CityGraph
  drivers : List (String × Driver)
  deriving DecidableEq, Repr

/-- Embed the `Optional[str]` result of `get_nearest_node` into the
`""`-for-`None` convention of the id fields. -/
def optIdToString : Option String → String
  | some s => s
  | none => ""

namespace DriverMatcher

/-- `DriverMatcher.__init__`. -/
def init (city_graph : CityGraph) : DriverMatcher :=
  { city_graph := city_graph, drivers := [] }

/-- `DriverMatcher.add_driver`: derives `nearest_node_id` by graph scan when
it is unset (falsy). -/
def add_driver (hdist : ℚ × ℚ → ℚ × ℚ → ℚ) (m : DriverMatcher) (driver : Driver) :
    DriverMatcher :=
  let driver1 :=
    if driver.nearest_node_id = "" then
      { driver with nearest_node_id :=
          optIdToString (m.city_graph.get_nearest_node hdist
            driver.current_location.1 driver.current_location.2).1 }
    else driver
  { m with drivers := dictInsert m.drivers driver1.id driver1 }

/-- `DriverMatcher.update_driver_status`: returns `False` both for an unknown
driver and for an invalid status string (the `ValueError` is caught). -/
def update_driver_status (m : DriverMatcher) (driver_id status : String) :
    DriverMatcher × Bool :=
  match dictLookup m.drivers driver_id with
  | none => (m, false)
  | some driver =>
    match DriverStatus.ofString status with
    | .ok st => ({ m with drivers := dictInsert m.drivers driver_id { driver with status := st } }, true)
    | .error _ => (m, false)

/-- `DriverMatcher.get_available_drivers`: iterate the driver dict in order,
keeping available drivers that match the optional vehicle-type filter. -/
def get_available_drivers (m : DriverMatcher) (vehicle_type : Option String) : List Driver :=
  (m.drivers.map (fun kd => kd.2)).filter (fun d =>
    d.status = DriverStatus.available ∧
      (vehicle_type = none ∨ some d.vehicle_type = vehicle_type))

/-- Stable insertion used to model Python's stable `list.sort(key=...)`:
insert before the first element with a strictly larger key, i.e. after all
earlier elements with an equal key. -/
def insertByDist (a : Driver × ℚ) : List (Driver × ℚ) → List (Driver × ℚ)
  | [] => [a]
  | b :: l => if a.2 ≤ b.2 then a :: b :: l else b :: insertByDist a l

/-- Stable sort by ascending straight-line distance (the sort key
`lambda x: x[1]`). -/
def sortByDist : List (Driver × ℚ) → List (Driver × ℚ)
  | [] => []
  | a :: l => insertByDist a (sortByDist l)

/-- `DriverMatcher.find_nearest_drivers`: straight-line filter, ascending
stable sort, truncation to `max_count`. -/
def find_nearest_drivers (hdist : ℚ × ℚ → ℚ × ℚ → ℚ) (m : DriverMatcher)
    (location : ℚ × ℚ) (max_count : ℕ) (max_distance : ℚ)
    (vehicle_type : Option String) : List (Driver × ℚ) :=
  let available_drivers := m.get_available_drivers vehicle_type
  let drivers_with_distance :=
    (available_drivers.map (fun d => (d, hdist location d.current_location))).filter
      (fun dd => dd.2 ≤ max_distance)
  (sortByDist drivers_with_distance).take max_count

/-- The vehicle-type fare table of `estimate_fare`
(`.get(request.vehicle_type.lower(), 15)`). -/
def per_km_rate (vehicle_type_lower : String) : ℚ :=
  if vehicle_type_lower = "mini" then 12
  else if vehicle_type_lower = "sedan" then 15
  else if vehicle_type_lower = "premium" then 20
  else if vehicle_type_lower = "suv" then 18
  else if vehicle_type_lower = "xl" then 25
  else 15

/-- ASCII lower-casing of a string, kernel-reducible; models
`str.lower()` for the ASCII vehicle-type names used in the repository. -/
def asciiLower (s : String) : String :=
  ⟨s.data.map (fun c =>
    if 65 ≤ c.toNat ∧ c.toNat ≤ 90 then Char.ofNat (c.toNat + 32) else c)⟩

/-- `DriverMatcher.estimate_fare`.  `current_hour` injects the wall-clock
`time.localtime().tm_hour` surge test; `eta_details` is accepted and unused,
as in the source. -/
def estimate_fare (hdist : ℚ × ℚ → ℚ × ℚ → ℚ) (current_hour : ℤ) (m : DriverMatcher)
    (request : RideRequest) (eta_details : List (String × PyVal)) : Except PyErr Pyf :=
  let base_fare : ℚ := 50
  let rate := per_km_rate (asciiLower request.vehicle_type)
  let ride_distance : Except PyErr Pyf :=
    if request.pickup_node_id ≠ "" ∧ request.dropoff_node_id ≠ "" then
      match find_optimal_path hdist m.city_graph request.pickup_node_id
          request.dropoff_node_id "a_star" "distance" with
      | .error e => .error e
      | .ok path_details =>
        match dictLookup path_details "total_distance" with
        | some (.num x) => .ok x
        | some _ => .error .typeError
        | none => .error (.keyError "total_distance")
    else
      .ok (.q 5)
  match ride_distance with
  | .error e => .error e
  | .ok rd =>
    let estimated_fare := (Pyf.q base_fare).add (rd.mulQ rate)
    let surged :=
      if (8 ≤ current_hour ∧ current_hour ≤ 10) ∨ (17 ≤ current_hour ∧ current_hour ≤ 19) then
        estimated_fare.mulQ (mkRat 3 2)
      else estimated_fare
    .ok surged.round2

end DriverMatcher

-- `simulation.RideStatus`: string constants.
namespace RideStatus

def requested : String := "requested"

def accepted : String := "accepted"

def driver_en_route : String := "driver_en_route"

def arrived : String := "arrived"

def in_progress : String := "in_progress"

def completed : String := "completed"

def cancelled : String := "cancelled"

end RideStatus

/-- `simulation.ActiveRide`.  The `driver` field holds the driver record the
ride was created with (Python aliases the registry object; driver-state facts
are therefore stated against the simulator's registry, and only the
identifying fields of this snapshot are relied on). -/
structure ActiveRide where
  ride_id : String
  request : RideRequest
  driver : Driver
  driver_to_pickup_path : List String
  pickup_to_dropoff_path : List String
  estimated_pickup_time : Pyf
  estimated_fare : Pyf
  status : String
  start_time : ℚ
  pickup_time : Option ℚ
  completion_time : Option ℚ
  current_path : List String
  current_path_segment : ℕ
  segment_progress : ℚ
  deriving DecidableEq, Repr

namespace ActiveRide

/-- `ActiveRide.__init__` (`now` injects `time.time()`). -/
def init (now : ℚ) (ride_id : String) (request : RideRequest) (driver : Driver)
    (driver_to_pickup_path pickup_to_dropoff_path : List String)
    (estimated_pickup_time estimated_fare : Pyf) : ActiveRide :=
  { ride_id := ride_id, request := request, driver := driver,
    driver_to_pickup_path := driver_to_pickup_path,
    pickup_to_dropoff_path := pickup_to_dropoff_path,
    estimated_pickup_time := estimated_pickup_time,
    estimated_fare := estimated_fare,
    status := RideStatus.accepted, start_time := now,
    pickup_time := none, completion_time := none,
    current_path := driver_to_pickup_path,
    current_path_segment := 0, segment_progress := 0 }

/-- `ActiveRide.update_status` (`now` injects `time.time()`). -/
def update_status (r : ActiveRide) (now : ℚ) (new_status : String) : ActiveRide :=
  let r1 := { r with status := new_status }
  if new_status = RideStatus.arrived then
    { r1 with
      pickup_time := some now
      current_path := r.pickup_to_dropoff_path
      current_path_segment := 0
      segment_progress := 0 }
  else if new_status = RideStatus.completed then
    { r1 with completion_time := some now }
  else r1

/-- `ActiveRide.get_current_segment`; Python list indexing out of range
(paths shorter than two nodes) raises `IndexError`. -/
def get_current_segment (r : ActiveRide) : Except PyErr (String × String) :=
  if hc : (r.current_path_segment : ℤ) ≥ (r.current_path.length : ℤ) - 1 then
    if h2 : 2 ≤ r.current_path.length then
      .ok (r.current_path.get ⟨r.current_path.length - 2, by omega⟩,
           r.current_path.get ⟨r.current_path.length - 1, by omega⟩)
    else .error .indexError
  else
    .ok (r.current_path.get ⟨r.current_path_segment, by omega⟩,
         r.current_path.get ⟨r.current_path_segment + 1, by omega⟩)

/-- `ActiveRide.update_progress` (`now` injects the `time.time()` read by the
`update_status` calls it makes; division by a zero-length segment raises
`ZeroDivisionError`). -/
def update_progress (hdist : ℚ × ℚ → ℚ × ℚ → ℚ) (g : CityGraph) (now delta_time speed : ℚ)
    (r : ActiveRide) : Except PyErr (ActiveRide × Bool) :=
  if r.status = RideStatus.completed ∨ r.status = RideStatus.cancelled then
    .ok (r, false)
  else
    let speed_kms := qdiv speed 3600
    let distance_covered := qmul speed_kms delta_time
    match r.get_current_segment with
    | .error e => .error e
    | .ok (from_node_id, to_node_id) =>
      match g.get_node from_node_id, g.get_node to_node_id with
      | some from_node, some to_node =>
        let segment_distance := hdist (from_node.lat, from_node.lng) (to_node.lat, to_node.lng)
        if segment_distance = 0 then .error .zeroDivision
        else
          let progress_increment := qdiv distance_covered segment_distance
          let r1 := { r with segment_progress := qadd r.segment_progress progress_increment }
          if r1.segment_progress ≥ 1 then
            let r2 := { r1 with
                        current_path_segment := r1.current_path_segment + 1
                        segment_progress := 0 }
            if (r2.current_path_segment : ℤ) ≥ (r2.current_path.length : ℤ) - 1 then
              if r2.status = RideStatus.driver_en_route then
                .ok (r2.update_status now RideStatus.arrived, true)
              else if r2.status = RideStatus.in_progress then
                .ok (r2.update_status now RideStatus.completed, true)
              else .ok (r2, true)
            else .ok (r2, true)
          else .ok (r1, false)
      | _, _ => .ok (r, false)

/-- `ActiveRide.get_current_location`: linear interpolation along the current
segment; `(0, 0)` when a segment endpoint does not resolve. -/
def get_current_location (g : CityGraph) (r : ActiveRide) : Except PyErr (ℚ × ℚ) :=
  match r.get_current_segment with
  | .error e => .error e
  | .ok (from_node_id, to_node_id) =>
    match g.get_node from_node_id, g.get_node to_node_id with
    | some from_node, some to_node =>
      .ok (qadd from_node.lat (qmul (qsub to_node.lat from_node.lat) r.segment_progress),
           qadd from_node.lng (qmul (qsub to_node.lng from_node.lng) r.segment_progress))
    | _, _ => .ok (0, 0)

end ActiveRide

/-- `simulation.RideSimulator` state (the thread/observer machinery carries
no ride state and is not modelled). -/
structure RideSimulator where
  city_graph : CityGraph
  driver_matcher : DriverMatcher
  active_rides : List (String × ActiveRide)
  simulation_speed : ℚ
  deriving DecidableEq, Repr

/-- The dict returned by `RideSimulator.get_ride_status` (nested dicts
flattened into labelled fields). -/
structure RideStatusView where
  ride_id : String
  status : String
  driver_id : String
  driver_name : String
  driver_current_location : ℚ × ℚ
  path_segment : ℕ
  segment_progress : ℚ
  pickup_time : Option ℚ
  completion_time : Option ℚ
  estimated_pickup_time : Pyf
  estimated_fare : Pyf
  deriving DecidableEq, Repr

/-- Result of the ride operations that return either an `{'error': ...}`
dict or a ride-status dict. -/
inductive RideOpResult where
  | errDict (msg : String)
  | statusDict (v : RideStatusView)
  deriving DecidableEq, Repr

/-- The dict returned by a successful `confirm_ride` (nested dicts flattened
into labelled fields). -/
structure ConfirmSuccess where
  ride_id : String
  status : String
  driver_id : String
  driver_name : String
  driver_rating : ℚ
  driver_vehicle_type : String
  estimated_pickup_time : Pyf
  estimated_fare : Pyf
  pickup_path_nodes : List NodeInfo
  pickup_path_distance : Pyf
  pickup_path_time : Pyf
  dropoff_path_nodes : List NodeInfo
  dropoff_path_distance : Pyf
  dropoff_path_time : Pyf
  deriving DecidableEq, Repr

/-- Result of `confirm_ride`: an `{'error': ...}` dict or the success dict. -/
inductive ConfirmResult where
  | errDict (msg : String)
  | success (payload : ConfirmSuccess)
  deriving DecidableEq, Repr

/-- Subscript a pathfinding result dict expecting a number
(`d['total_distance']` etc.); `KeyError` if absent. -/
def pdNum (d : List (String × PyVal)) (k : String) : Except PyErr Pyf :=
  match dictLookup d k with
  | some (.num x) => .ok x
  | some _ => .error .typeError
  | none => .error (.keyError k)

/-- Subscript a pathfinding result dict expecting the node list. -/
def pdNodes (d : List (String × PyVal)) (k : String) : Except PyErr (List NodeInfo) :=
  match dictLookup d k with
  | some (.nodeList l) => .ok l
  | some _ => .error .typeError
  | none => .error (.keyError k)

/-- Subscript a pathfinding result dict expecting a predecessor map (the
shape `reconstruct_path` requires); `KeyError` if absent — which is always
the case for the dicts `find_optimal_path` builds. -/
def pdPreds (d : List (String × PyVal)) (k : String) : Except PyErr PredMap :=
  match dictLookup d k with
  | some (.preds p) => .ok p
  | some _ => .error .typeError
  | none => .error (.keyError k)

namespace RideSimulator

/-- `RideSimulator.__init__`. -/
def init (city_graph : CityGraph) : RideSimulator :=
  { city_graph := city_graph, driver_matcher := DriverMatcher.init city_graph,
    active_rides := [], simulation_speed := 10 }

/-- `RideSimulator.get_ride_status`. -/
def get_ride_status (sim : RideSimulator) (ride_id : String) : Except PyErr RideOpResult :=
  match dictLookup sim.active_rides ride_id with
  | none => .ok (.errDict "Ride not found")
  | some ride =>
    match ride.get_current_location sim.city_graph with
    | .error e => .error e
    | .ok current_location =>
      .ok (.statusDict
        { ride_id := ride.ride_id, status := ride.status,
          driver_id := ride.driver.id, driver_name := ride.driver.name,
          driver_current_location := current_location,
          path_segment := ride.current_path_segment,
          segment_progress := ride.segment_progress,
          pickup_time := ride.pickup_time, completion_time := ride.completion_time,
          estimated_pickup_time := ride.estimated_pickup_time,
          estimated_fare := ride.estimated_fare })

/-- `RideSimulator.confirm_ride` (`now` injects `time.time()`,
`current_hour` the wall clock read by `estimate_fare`).  The returned
simulator is the state at return or at the uncaught exception. -/
def confirm_ride (hdist : ℚ × ℚ → ℚ × ℚ → ℚ) (now : ℚ) (current_hour : ℤ)
    (sim : RideSimulator) (request : RideRequest) (driver_id : String) :
    RideSimulator × Except PyErr ConfirmResult :=
  match dictLookup sim.driver_matcher.drivers driver_id with
  | none => (sim, .ok (.errDict "Driver not found"))
  | some driver =>
    if driver.status ≠ DriverStatus.available then
      (sim, .ok (.errDict "Driver is not available"))
    else
      match find_optimal_path hdist sim.city_graph driver.nearest_node_id
          request.pickup_node_id "a_star" "time" with
      | .error e => (sim, .error e)
      | .ok driver_to_pickup =>
        match find_optimal_path hdist sim.city_graph request.pickup_node_id
            request.dropoff_node_id "a_star" "time" with
        | .error e => (sim, .error e)
        | .ok pickup_to_dropoff =>
          let ride_id := "ride-" ++ toString (qtrunc now)
          match DriverMatcher.estimate_fare hdist current_hour sim.driver_matcher
              request pickup_to_dropoff with
          | .error e => (sim, .error e)
          | .ok estimated_fare =>
            match pdPreds driver_to_pickup "predecessors" with
            | .error e => (sim, .error e)
            | .ok preds1 =>
              match reconstruct_path preds1 driver.nearest_node_id request.pickup_node_id with
              | .error e => (sim, .error e)
              | .ok path1 =>
                match pdPreds pickup_to_dropoff "predecessors" with
                | .error e => (sim, .error e)
                | .ok preds2 =>
                  match reconstruct_path preds2 request.pickup_node_id
                      request.dropoff_node_id with
                  | .error e => (sim, .error e)
                  | .ok path2 =>
                    match pdNum driver_to_pickup "total_time" with
                    | .error e => (sim, .error e)
                    | .ok ept =>
                      let active_ride := ActiveRide.init now ride_id request driver
                        path1 path2 ept estimated_fare
                      let dm1 := (sim.driver_matcher.update_driver_status driver_id "busy").1
                      let active_ride1 := active_ride.update_status now RideStatus.driver_en_route
                      let sim1 := { sim with
                        driver_matcher := dm1
                        active_rides := dictInsert sim.active_rides ride_id active_ride1 }
                      match pdNodes driver_to_pickup "nodes" with
                      | .error e => (sim1, .error e)
                      | .ok pnodes =>
                        match pdNum driver_to_pickup "total_distance" with
                        | .error e => (sim1, .error e)
                        | .ok pdist =>
                          match pdNum driver_to_pickup "total_time" with
                          | .error e => (sim1, .error e)
                          | .ok ptime =>
                            match pdNodes pickup_to_dropoff "nodes" with
                            | .error e => (sim1, .error e)
                            | .ok dnodes =>
                              match pdNum pickup_to_dropoff "total_distance" with
                              | .error e => (sim1, .error e)
                              | .ok ddist =>
                                match pdNum pickup_to_dropoff "total_time" with
                                | .error e => (sim1, .error e)
                                | .ok dtime =>
                                  (sim1, .ok (.success
                                    { ride_id := ride_id, status := active_ride1.status,
                                      driver_id := driver.id, driver_name := driver.name,
                                      driver_rating := driver.rating,
                                      driver_vehicle_type := driver.vehicle_type,
                                      estimated_pickup_time := active_ride1.estimated_pickup_time,
                                      estimated_fare := active_ride1.estimated_fare,
                                      pickup_path_nodes := pnodes,
                                      pickup_path_distance := pdist,
                                      pickup_path_time := ptime,
                                      dropoff_path_nodes := dnodes,
                                      dropoff_path_distance := ddist,
                                      dropoff_path_time := dtime }))

/-- `RideSimulator.start_ride`. -/
def start_ride (now : ℚ) (sim : RideSimulator) (ride_id : String) :
    RideSimulator × Except PyErr RideOpResult :=
  match dictLookup sim.active_rides ride_id with
  | none => (sim, .ok (.errDict "Ride not found"))
  | some ride =>
    if ride.status ≠ RideStatus.arrived then
      (sim, .ok (.errDict "Driver has not arrived at pickup yet"))
    else
      let ride1 := ride.update_status now RideStatus.in_progress
      let sim1 := { sim with active_rides := dictInsert sim.active_rides ride_id ride1 }
      (sim1, sim1.get_ride_status ride_id)

/-- `RideSimulator.cancel_ride`: no precondition on the current status. -/
def cancel_ride (now : ℚ) (sim : RideSimulator) (ride_id : String) :
    RideSimulator × Except PyErr RideOpResult :=
  match dictLookup sim.active_rides ride_id with
  | none => (sim, .ok (.errDict "Ride not found"))
  | some ride =>
    let ride1 := ride.update_status now RideStatus.cancelled
    let sim1 := { sim with active_rides := dictInsert sim.active_rides ride_id ride1 }
    let dm1 := (sim1.driver_matcher.update_driver_status ride.driver.id "available").1
    let sim2 := { sim1 with driver_matcher := dm1 }
    (sim2, sim2.get_ride_status ride_id)

/-- `RideSimulator.complete_ride`. -/
def complete_ride (now : ℚ) (sim : RideSimulator) (ride_id : String) :
    RideSimulator × Except PyErr RideOpResult :=
  match dictLookup sim.active_rides ride_id with
  | none => (sim, .ok (.errDict "Ride not found"))
  | some ride =>
    if ride.status ≠ RideStatus.in_progress then
      (sim, .ok (.errDict "Ride is not in progress"))
    else
      let ride1 := ride.update_status now RideStatus.completed
      let sim1 := { sim with active_rides := dictInsert sim.active_rides ride_id ride1 }
      let dm1 := (sim1.driver_matcher.update_driver_status ride.driver.id "available").1
      let sim2 := { sim1 with driver_matcher := dm1 }
      (sim2, sim2.get_ride_status ride_id)

end RideSimulator

/-- Kernel-reducible absolute value on `ℚ`. -/
def qabs (x : ℚ) : ℚ := if x < 0 then Rat.divInt (-x.num) x.den else x

/-- Well-formed graph: every adjacency entry references an existing node.
This is the class invariant maintained by `add_edge` (which inserts an entry
only when both endpoints are present). -/
def wfGraph (g : CityGraph) : Prop :=
  ∀ kn ∈ g.nodes, ∀ nb ∈ kn.2.neighbors, (dictLookup g.nodes nb.1).isSome = true

instance (g : CityGraph) : Decidable (wfGraph g) := by
  unfold wfGraph; infer_instance

/-- Non-negative edge costs: the graph invariant stated by the spec
(section 3: "invariant: edge costs ≥ 0"). -/
def nonnegGraph (g : CityGraph) : Prop :=
  ∀ kn ∈ g.nodes, ∀ nb ∈ kn.2.neighbors, 0 ≤ nb.2.1 ∧ 0 ≤ nb.2.2

instance (g : CityGraph) : Decidable (nonnegGraph g) := by
  unfold nonnegGraph; infer_instance

/-- The node dict has no duplicate keys (invariant of dict-based storage). -/
def graphNodupKeys (g : CityGraph) : Prop := (g.nodes.map Prod.fst).Nodup

instance (g : CityGraph) : Decidable (graphNodupKeys g) := by
  unfold graphNodupKeys; infer_instance

/-- Every stored node's `id` field equals its dict key (invariant of
`add_node`, which keys nodes by `node.id`). -/
def graphKeysConsistent (g : CityGraph) : Prop := ∀ kn ∈ g.nodes, kn.2.id = kn.1

instance (g : CityGraph) : Decidable (graphKeysConsistent g) := by
  unfold graphKeysConsistent; infer_instance

/-- Every node's adjacency dict has no duplicate keys (invariant of
`add_neighbor`, which inserts into a dict). -/
def graphNeighborsNodup (g : CityGraph) : Prop :=
  ∀ kn ∈ g.nodes, (kn.2.neighbors.map Prod.fst).Nodup

instance (g : CityGraph) : Decidable (graphNeighborsNodup g) := by
  unfold graphNeighborsNodup; infer_instance

/-- Every node's `name` is nonempty (invariant of `CityNode.__init__`,
whose `name or f"Node {node_id}"` default never stores a falsy name). -/
def graphNamesNonempty (g : CityGraph) : Prop := ∀ kn ∈ g.nodes, kn.2.name ≠ ""

instance (g : CityGraph) : Decidable (graphNamesNonempty g) := by
  unfold graphNamesNonempty; infer_instance

/-- A node id is present in the graph. -/
def memGraph (g : CityGraph) (node_id : String) : Prop :=
  (dictLookup g.nodes node_id).isSome = true

instance (g : CityGraph) (node_id : String) : Decidable (memGraph g node_id) := by
  unfold memGraph; infer_instance

/-- Reachability along stored adjacency entries (directed). -/
inductive Reach (g : CityGraph) (s : String) : String → Prop where
  | refl : Reach g s s
  | step : ∀ {u v : String} {node : CityNode} {w : ℚ × ℚ},
      Reach g s u → dictLookup g.nodes u = some node →
      (v, w) ∈ node.neighbors → Reach g s v

/-- Stand-in instantiation for the abstracted great-circle distance in
concrete witnesses: a taxicab metric scaled by 111 km per degree
(symmetric, zero exactly on equal points, within a percent of the
equatorial haversine values for the points used below). -/
def flatDist (p q : ℚ × ℚ) : ℚ :=
  qmul 111 (qadd (qabs (qsub p.1 q.1)) (qabs (qsub p.2 q.2)))

/-- Two disconnected nodes (used to exhibit unreachable-goal behavior). -/
def twoG : CityGraph :=
  (CityGraph.init.add_node (CityNode.init "A" 0 0 none)).add_node
    (CityNode.init "B" 0 1 none)

/-- Concrete driver registered as BUSY. -/
def busyDriver : Driver :=
  { id := "d1", name := "Driver One", current_location := (0, 0),
    nearest_node_id := "A", status := .busy, vehicle_type := "sedan",
    rating := mkRat 9 2, total_trips := 10 }

/-- Concrete simulator state holding `busyDriver`. -/
def simC4 : RideSimulator :=
  { city_graph := twoG,
    driver_matcher := { city_graph := twoG, drivers := [("d1", busyDriver)] },
    active_rides := [], simulation_speed := 10 }

/-- Concrete ride request between the two nodes of `twoG`. -/
def reqAB : RideRequest :=
  { id := "r1", user_id := "u1", pickup_location := (0, 0), pickup_node_id := "A",
    dropoff_location := some (0, 1), dropoff_node_id := "B",
    vehicle_type := "sedan", timestamp := 0 }

/-- C10: `get_nearest_node` on a graph with no nodes returns `(None, inf)`
(no error is signalled), and `add_driver` on such a graph therefore stores
the driver with a `None` nearest node (embedded as `""`). -/
theorem get_nearest_node_empty_graph (hdist : ℚ × ℚ → ℚ × ℚ → ℚ) (lat lng : ℚ)
    (m : DriverMatcher) (d : Driver)
    (hm : m.city_graph.nodes = []) (hd : d.nearest_node_id = "") :
    CityGraph.get_nearest_node hdist { nodes := [] } lat lng = (none, Pyf.inf) ∧
    dictLookup (m.add_driver hdist d).drivers d.id =
      some { d with nearest_node_id := "" } := by
  constructor
  · rfl
  · unfold DriverMatcher.add_driver
    rw [if_pos hd]
    unfold CityGraph.get_nearest_node
    rw [hm]
    simp only [List.foldl_nil, optIdToString]
    exact dictLookup_insert_self _ _ _

/-- Witness for C10 at a concrete empty-graph matcher and driver. -/
theorem get_nearest_node_empty_graph_witness :
    (DriverMatcher.init CityGraph.init).city_graph.nodes = [] ∧
    ({ busyDriver with nearest_node_id := "" } : Driver).nearest_node_id = "" ∧
    CityGraph.get_nearest_node flatDist { nodes := [] } 3 4 = (none, Pyf.inf) ∧
    dictLookup ((DriverMatcher.init CityGraph.init).add_driver flatDist
        { busyDriver with nearest_node_id := "" }).drivers "d1" =
      some { busyDriver with nearest_node_id := "" } := by
  refine ⟨rfl, rfl, ?_⟩
  have h := get_nearest_node_empty_graph flatDist 3 4 (DriverMatcher.init CityGraph.init)
    { busyDriver with nearest_node_id := "" } rfl rfl
  exact ⟨h.1, h.2⟩

/-- C4: `confirm_ride` with a registered driver whose status is not
AVAILABLE returns the `{'error': 'Driver is not available'}` dict (the
code's surface form of the PreconditionFailed failure), creates no
ActiveRide and leaves the whole simulator state — in particular every
driver record — unchanged. -/
theorem confirm_ride_unavailable_driver (hdist : ℚ × ℚ → ℚ × ℚ → ℚ) (now : ℚ)
    (current_hour : ℤ) (sim : RideSimulator) (request : RideRequest)
    (driver_id : String) (driver : Driver)
    (hd : dictLookup sim.driver_matcher.drivers driver_id = some driver)
    (hs : driver.status ≠ DriverStatus.available) :
    RideSimulator.confirm_ride hdist now current_hour sim request driver_id =
      (sim, .ok (.errDict "Driver is not available")) := by
  unfold RideSimulator.confirm_ride
  rw [hd]
  simp [hs]

/-- Witness for C4: the concrete BUSY driver `busyDriver` in `simC4`. -/
theorem confirm_ride_unavailable_driver_witness :
    dictLookup simC4.driver_matcher.drivers "d1" = some busyDriver ∧
    busyDriver.status ≠ DriverStatus.available ∧
    RideSimulator.confirm_ride flatDist 0 12 simC4 reqAB "d1" =
      (simC4, .ok (.errDict "Driver is not available")) :=
  ⟨by decide, by decide,
    confirm_ride_unavailable_driver flatDist 0 12 simC4 reqAB "d1" busyDriver
      (by decide) (by decide)⟩

theorem mem_insertByDist (a x : Driver × ℚ) (l : List (Driver × ℚ)) :
    x ∈ DriverMatcher.insertByDist a l ↔ x = a ∨ x ∈ l := by
  induction l with
  | nil => simp [DriverMatcher.insertByDist]
  | cons b t ih =>
    by_cases h : a.2 ≤ b.2 <;> simp [DriverMatcher.insertByDist, h, ih] <;> tauto

theorem mem_sortByDist (x : Driver × ℚ) (l : List (Driver × ℚ)) :
    x ∈ DriverMatcher.sortByDist l ↔ x ∈ l := by
  induction l with
  | nil => simp [DriverMatcher.sortByDist]
  | cons a t ih => simp [DriverMatcher.sortByDist, mem_insertByDist, ih]

theorem pairwise_insertByDist (a : Driver × ℚ) (l : List (Driver × ℚ))
    (h : List.Pairwise (fun x y : Driver × ℚ => x.2 ≤ y.2) l) :
    List.Pairwise (fun x y : Driver × ℚ => x.2 ≤ y.2) (DriverMatcher.insertByDist a l) := by
  induction l with
  | nil => simp [DriverMatcher.insertByDist]
  | cons b t ih =>
    rcases List.pairwise_cons.mp h with ⟨hb, ht⟩
    by_cases hab : a.2 ≤ b.2
    · rw [DriverMatcher.insertByDist, if_pos hab]
      refine List.pairwise_cons.mpr ⟨?_, h⟩
      intro x hx
      rcases List.mem_cons.mp hx with hx | hx
      · exact hx ▸ hab
      · exact le_trans hab (hb x hx)
    · rw [DriverMatcher.insertByDist, if_neg hab]
      refine List.pairwise_cons.mpr ⟨?_, ih ht⟩
      intro x hx
      rcases (mem_insertByDist a x t).mp hx with hx | hx
      · exact hx ▸ le_of_not_le hab
      · exact hb x hx

theorem pairwise_sortByDist (l : List (Driver × ℚ)) :
    List.Pairwise (fun x y : Driver × ℚ => x.2 ≤ y.2) (DriverMatcher.sortByDist l) := by
  induction l with
  | nil => simp [DriverMatcher.sortByDist]
  | cons a t ih => exact pairwise_insertByDist a _ ih

/-- C8: `find_nearest_drivers` returns at most `max_count` results, every
result carries the straight-line distance of its driver to the query
location and that distance is at most `max_distance_km`, and the result
list is sorted ascending by that distance. -/
theorem find_nearest_drivers_bounds (hdist : ℚ × ℚ → ℚ × ℚ → ℚ) (m : DriverMatcher)
    (location : ℚ × ℚ) (max_count : ℕ) (max_distance : ℚ)
    (vehicle_type : Option String) :
    (m.find_nearest_drivers hdist location max_count max_distance vehicle_type).length
        ≤ max_count ∧
    (∀ dd ∈ m.find_nearest_drivers hdist location max_count max_distance vehicle_type,
        dd.2 = hdist location dd.1.current_location ∧ dd.2 ≤ max_distance) ∧
    List.Pairwise (fun a b : Driver × ℚ => a.2 ≤ b.2)
      (m.find_nearest_drivers hdist location max_count max_distance vehicle_type) := by
  unfold DriverMatcher.find_nearest_drivers
  refine ⟨List.length_take_le _ _, ?_, ?_⟩
  · intro dd hdd
    have hmem : dd ∈ DriverMatcher.sortByDist
        (((m.get_available_drivers vehicle_type).map
          (fun d => (d, hdist location d.current_location))).filter
            (fun dd => dd.2 ≤ max_distance)) :=
      (List.take_sublist _ _).subset hdd
    have hmem2 := (mem_sortByDist _ _).mp hmem
    rcases List.mem_filter.mp hmem2 with ⟨hmap, hle⟩
    rcases List.mem_map.mp hmap with ⟨d, _, hd⟩
    constructor
    · rw [← hd]
    · exact of_decide_eq_true hle
  · exact List.Pairwise.sublist (List.take_sublist _ _) (pairwise_sortByDist _)

/-- The adjacent pairs of a path: the segments path-detail aggregation
ranges over. -/
def pathPairs : List String → List (String × String)
  | a :: b :: rest => (a, b) :: pathPairs (b :: rest)
  | _ => []

/-- The segments of a path whose endpoints both resolve in the graph, with
the stored edge costs (`(inf, inf)` when the edge itself is absent). -/
def resolvedSegments (g : CityGraph) (path : List String) : List SegInfo :=
  (pathPairs path).filterMap (fun p =>
    match g.get_node p.1, g.get_node p.2 with
    | some n1, some _ =>
      some ⟨p.1, p.2, (n1.get_neighbor_cost p.2).1, (n1.get_neighbor_cost p.2).2⟩
    | _, _ => none)

/-- The node records accumulated by path-detail aggregation: the first
endpoint of every resolved segment. -/
def resolvedNodeInfos (g : CityGraph) (path : List String) : List NodeInfo :=
  (pathPairs path).filterMap (fun p =>
    match g.get_node p.1, g.get_node p.2 with
    | some n1, some _ => some ⟨n1.id, n1.lat, n1.lng, n1.name⟩
    | _, _ => none)

theorem pathDetailsLoop_eq (g : CityGraph) :
    ∀ (path : List String) (nodes : List NodeInfo) (td tt : Pyf) (segs : List SegInfo),
    pathDetailsLoop g path (nodes, td, tt, segs) =
      (nodes ++ resolvedNodeInfos g path,
       (resolvedSegments g path).foldl (fun acc s => acc.add s.distance) td,
       (resolvedSegments g path).foldl (fun acc s => acc.add s.time) tt,
       segs ++ resolvedSegments g path) := by
  intro path
  induction path with
  | nil =>
    intro nodes td tt segs
    simp [pathDetailsLoop, resolvedNodeInfos, resolvedSegments, pathPairs]
  | cons a rest ih =>
    cases rest with
    | nil =>
      intro nodes td tt segs
      simp [pathDetailsLoop, resolvedNodeInfos, resolvedSegments, pathPairs]
    | cons b rest2 =>
      intro nodes td tt segs
      rw [pathDetailsLoop]
      rw [resolvedNodeInfos, resolvedSegments, pathPairs]
      cases hga : g.get_node a <;> cases hgb : g.get_node b <;>
        simp only [hga, hgb] <;> rw [ih] <;>
        simp [resolvedNodeInfos, resolvedSegments, List.filterMap_cons, hga, hgb]

theorem pathPairs_short (path : List String) (h : path.length < 2) :
    pathPairs path = [] := by
  match path, h with
  | [], _ => rfl
  | [a], _ => rfl

/-- C3 (amended): `get_path_details` raises no error on a path containing
unresolved node references; it silently skips every segment with an
unresolved endpoint and returns totals and a segment list computed from the
remaining, resolvable segments only. -/
theorem get_path_details_skips_unresolved (g : CityGraph) (path : List String) :
    dictLookup (get_path_details g path) "segments" =
      some (.segList (resolvedSegments g path)) ∧
    dictLookup (get_path_details g path) "total_distance" =
      some (.num (((resolvedSegments g path).foldl
        (fun acc s => acc.add s.distance) (Pyf.q 0)).round2)) ∧
    dictLookup (get_path_details g path) "total_time" =
      some (.num (((resolvedSegments g path).foldl
        (fun acc s => acc.add s.time) (Pyf.q 0)).round2)) := by
  by_cases hlen : path.length < 2
  · have hpp : resolvedSegments g path = [] := by
      rw [resolvedSegments, pathPairs_short path hlen]; rfl
    rw [get_path_details, if_pos hlen, hpp]
    refine ⟨rfl, ?_, ?_⟩ <;>
      simp [dictLookup] <;> decide
  · rw [get_path_details, if_neg hlen]
    rw [pathDetailsLoop_eq g path [] (.q 0) (.q 0) []]
    simp [dictLookup]

/-- Three-node graph with a single edge, used to exhibit silent skipping. -/
def gC3 : CityGraph :=
  (((CityGraph.init.add_node (CityNode.init "1" 0 0 none)).add_node
    (CityNode.init "2" 0 1 none)).add_node
    (CityNode.init "4" 0 2 none)).add_edge "1" "2" (mkRat 3 2) 8 true

/-- Counterexample to C3 as stated: on the path `["1", "2", "X", "4"]`,
where `"X"` resolves to no node of `gC3`, `get_path_details` raises nothing;
it returns a plain result dict whose totals come from the one resolvable
segment `1 → 2` alone, and whose node list silently omits node `"2"` and the
two skipped segments. -/
theorem get_path_details_skip_cex :
    CityGraph.get_node gC3 "X" = none ∧
    get_path_details gC3 ["1", "2", "X", "4"] =
      [("nodes", .nodeList [⟨"1", 0, 0, "Node 1"⟩, ⟨"4", 0, 2, "Node 4"⟩]),
       ("total_distance", .num (.q (mkRat 3 2))), ("total_time", .num (.q 8)),
       ("segments", .segList [⟨"1", "2", .q (mkRat 3 2), .q 8⟩])] := by
  constructor
  · decide
  · decide

/-- C6 (amended): a single `update_progress` call advances the segment
cursor by at most one.  When a segment completes (`True` returned) the
fractional progress is reset to exactly `0.0`, discarding the overshoot
beyond the completed segment, so covering several short segments requires as
many calls; when no segment completes, the cursor does not move. -/
theorem update_progress_single_segment (hdist : ℚ × ℚ → ℚ × ℚ → ℚ) (g : CityGraph)
    (now delta_time speed : ℚ) (r r' : ActiveRide) (b : Bool)
    (h : ActiveRide.update_progress hdist g now delta_time speed r = .ok (r', b)) :
    (b = true → r'.segment_progress = 0 ∧
      r'.current_path_segment ≤ r.current_path_segment + 1) ∧
    (b = false → r'.current_path_segment = r.current_path_segment ∧
      r'.current_path = r.current_path) := by
  unfold ActiveRide.update_progress at h
  split at h
  · simp only [Except.ok.injEq, Prod.mk.injEq] at h
    obtain ⟨h1, h2⟩ := h
    subst h1; subst h2
    exact ⟨fun hb => (nomatch hb), fun _ => ⟨rfl, rfl⟩⟩
  · split at h
    · exact absurd h (by simp)
    · split at h
      · dsimp only at h
        split at h
        · exact absurd h (by simp)
        · split at h
          · split at h
            · split at h
              · simp only [Except.ok.injEq, Prod.mk.injEq] at h
                obtain ⟨h1, h2⟩ := h
                subst h1; subst h2
                refine ⟨fun _ => ⟨?_, ?_⟩, fun hb => (nomatch hb)⟩
                · simp [ActiveRide.update_status, RideStatus.arrived]
                · simp [ActiveRide.update_status, RideStatus.arrived]
              · split at h
                · simp only [Except.ok.injEq, Prod.mk.injEq] at h
                  obtain ⟨h1, h2⟩ := h
                  subst h1; subst h2
                  refine ⟨fun _ => ⟨?_, ?_⟩, fun hb => (nomatch hb)⟩
                  · simp [ActiveRide.update_status, RideStatus.arrived,
                      RideStatus.completed, RideStatus.in_progress]
                  · simp [ActiveRide.update_status, RideStatus.arrived,
                      RideStatus.completed, RideStatus.in_progress]
                · simp only [Except.ok.injEq, Prod.mk.injEq] at h
                  obtain ⟨h1, h2⟩ := h
                  subst h1; subst h2
                  exact ⟨fun _ => ⟨rfl, by simp⟩, fun hb => (nomatch hb)⟩
            · simp only [Except.ok.injEq, Prod.mk.injEq] at h
              obtain ⟨h1, h2⟩ := h
              subst h1; subst h2
              exact ⟨fun _ => ⟨rfl, by simp⟩, fun hb => (nomatch hb)⟩
          · simp only [Except.ok.injEq, Prod.mk.injEq] at h
            obtain ⟨h1, h2⟩ := h
            subst h1; subst h2
            exact ⟨fun hb => (nomatch hb), fun _ => ⟨rfl, rfl⟩⟩
      · simp only [Except.ok.injEq, Prod.mk.injEq] at h
        obtain ⟨h1, h2⟩ := h
        subst h1; subst h2
        exact ⟨fun hb => (nomatch hb), fun _ => ⟨rfl, rfl⟩⟩

/-- Four nodes on a line, consecutive pairs joined by 1 km edges; under
`flatDist` every segment is exactly 1 km long. -/
def lineG : CityGraph :=
  let g0 := (((CityGraph.init.add_node (CityNode.init "P0" 0 0 none)).add_node
    (CityNode.init "P1" 0 (mkRat 1 111) none)).add_node
    (CityNode.init "P2" 0 (mkRat 2 111) none)).add_node
    (CityNode.init "P3" 0 (mkRat 3 111) none)
  ((g0.add_edge "P0" "P1" 1 2 true).add_edge "P1" "P2" 1 2 true).add_edge "P2" "P3" 1 2 true

/-- A ride en route along the four-node line, at the start of segment 0. -/
def rideC6 : ActiveRide :=
  { ride_id := "r6", request := reqAB, driver := busyDriver,
    driver_to_pickup_path := ["P0", "P1", "P2", "P3"],
    pickup_to_dropoff_path := ["P3", "P2"],
    estimated_pickup_time := .q 6, estimated_fare := .q 80,
    status := RideStatus.driver_en_route, start_time := 0,
    pickup_time := none, completion_time := none,
    current_path := ["P0", "P1", "P2", "P3"],
    current_path_segment := 0, segment_progress := 0 }

/-- The state the code actually produces from `rideC6` after one tick that
covers 2.5 km: cursor advanced by one, fractional progress discarded. -/
def rideC6after : ActiveRide :=
  { rideC6 with current_path_segment := 1, segment_progress := 0 }

/-- Counterexample to C6 as stated: at 30 km/h, 300 simulated seconds cover
2.5 km — the whole of the two 1 km segments `P0-P1`, `P1-P2` and half of
`P2-P3`, so the claim expects cursor 2 with fractional progress 1/2.  The
code instead advances the cursor by exactly one and resets the fractional
progress to 0, discarding the remaining 1.5 km of covered distance. -/
theorem update_progress_no_chaining_cex :
    qmul (qdiv 30 3600) 300 = mkRat 5 2 ∧
    flatDist (0, 0) (0, mkRat 1 111) = 1 ∧
    ActiveRide.update_progress flatDist lineG 0 300 30 rideC6 = .ok (rideC6after, true) ∧
    rideC6after.current_path_segment = 1 ∧ rideC6after.segment_progress = 0 := by
  refine ⟨by decide, by decide, by decide, rfl, rfl⟩

/-- Witness for the amended C6 at the concrete multi-segment tick. -/
theorem update_progress_single_segment_witness :
    ActiveRide.update_progress flatDist lineG 0 300 30 rideC6 = .ok (rideC6after, true) ∧
    rideC6after.segment_progress = 0 ∧
    rideC6after.current_path_segment ≤ rideC6.current_path_segment + 1 :=
  have h : ActiveRide.update_progress flatDist lineG 0 300 30 rideC6 =
      .ok (rideC6after, true) := by decide
  ⟨h, (update_progress_single_segment flatDist lineG 0 300 30 rideC6
    rideC6after true h).1 rfl⟩

/-- A COMPLETED ride over the two-node path `P0-P1`. -/
def rideC7 : ActiveRide :=
  { ride_id := "r7", request := reqAB, driver := busyDriver,
    driver_to_pickup_path := ["P0", "P1"],
    pickup_to_dropoff_path := ["P0", "P1"],
    estimated_pickup_time := .q 2, estimated_fare := .q 80,
    status := RideStatus.completed, start_time := 0,
    pickup_time := some 1, completion_time := some 2,
    current_path := ["P0", "P1"],
    current_path_segment := 1, segment_progress := 0 }

/-- Simulator holding the completed ride `rideC7` and its driver. -/
def simC7 : RideSimulator :=
  { city_graph := lineG,
    driver_matcher := { city_graph := lineG, drivers := [("d1", busyDriver)] },
    active_rides := [("r7", rideC7)], simulation_speed := 10 }

/-- Counterexample to C7 as stated: `cancel_ride` on the COMPLETED ride
`rideC7` changes its status to CANCELLED — COMPLETED is not terminal under
`cancel_ride`, which checks no precondition. -/
theorem cancel_ride_terminal_cex :
    (dictLookup simC7.active_rides "r7").map ActiveRide.status =
      some RideStatus.completed ∧
    (dictLookup (RideSimulator.cancel_ride 9 simC7 "r7").1.active_rides "r7").map
        ActiveRide.status = some RideStatus.cancelled := by
  refine ⟨by decide, by decide⟩

/-- C7 (amended): COMPLETED and CANCELLED are terminal for the tick
(`update_progress` returns immediately without change), for `start_ride`
(requires ARRIVED) and for `complete_ride` (requires IN_PROGRESS) — but not
for `cancel_ride`, which checks no precondition and unconditionally moves
the ride (even a COMPLETED one) to CANCELLED and frees its driver. -/
theorem terminal_status_ops (hdist : ℚ × ℚ → ℚ × ℚ → ℚ) (g : CityGraph)
    (now delta_time speed : ℚ) (sim : RideSimulator) (rid : String) (ride : ActiveRide)
    (hr : dictLookup sim.active_rides rid = some ride)
    (ht : ride.status = RideStatus.completed ∨ ride.status = RideStatus.cancelled) :
    ActiveRide.update_progress hdist g now delta_time speed ride = .ok (ride, false) ∧
    RideSimulator.start_ride now sim rid =
      (sim, .ok (.errDict "Driver has not arrived at pickup yet")) ∧
    RideSimulator.complete_ride now sim rid =
      (sim, .ok (.errDict "Ride is not in progress")) ∧
    dictLookup (RideSimulator.cancel_ride now sim rid).1.active_rides rid =
      some { ride with status := RideStatus.cancelled } := by
  have hna : ride.status ≠ RideStatus.arrived := by
    rcases ht with ht | ht <;> rw [ht] <;> decide
  have hni : ride.status ≠ RideStatus.in_progress := by
    rcases ht with ht | ht <;> rw [ht] <;> decide
  refine ⟨?_, ?_, ?_, ?_⟩
  · unfold ActiveRide.update_progress
    rw [if_pos ht]
  · unfold RideSimulator.start_ride
    rw [hr]
    dsimp only
    rw [if_pos hna]
  · unfold RideSimulator.complete_ride
    rw [hr]
    dsimp only
    rw [if_pos hni]
  · unfold RideSimulator.cancel_ride
    rw [hr]
    have hu : ride.update_status now RideStatus.cancelled =
        { ride with status := RideStatus.cancelled } := by
      unfold ActiveRide.update_status
      rw [if_neg (by decide), if_neg (by decide)]
    dsimp only
    rw [hu]
    exact dictLookup_insert_self _ _ _

/-- Witness for the amended C7 at the concrete completed ride `rideC7`. -/
theorem terminal_status_ops_witness :
    dictLookup simC7.active_rides "r7" = some rideC7 ∧
    (rideC7.status = RideStatus.completed ∨ rideC7.status = RideStatus.cancelled) ∧
    (ActiveRide.update_progress flatDist lineG 3 60 30 rideC7 = .ok (rideC7, false) ∧
     RideSimulator.start_ride 3 simC7 "r7" =
       (simC7, .ok (.errDict "Driver has not arrived at pickup yet")) ∧
     RideSimulator.complete_ride 3 simC7 "r7" =
       (simC7, .ok (.errDict "Ride is not in progress")) ∧
     dictLookup (RideSimulator.cancel_ride 3 simC7 "r7").1.active_rides "r7" =
       some { rideC7 with status := RideStatus.cancelled }) :=
  ⟨by decide, Or.inl (by decide),
    terminal_status_ops flatDist lineG 3 60 30 simC7 "r7" rideC7 (by decide)
      (Or.inl (by decide))⟩

/-- Keys of an association list, in order. -/
def dkeys {α : Type} (l : List (String × α)) : List String := l.map Prod.fst

theorem dictLookup_isSome_iff {α : Type} (l : List (String × α)) (k : String) :
    (dictLookup l k).isSome = true ↔ k ∈ dkeys l := by
  induction l with
  | nil => simp [dictLookup, dkeys]
  | cons e rest ih =>
    by_cases he : e.1 = k <;> simp [dictLookup, dkeys, he, ih] <;> tauto

theorem dictInsert_fresh {α : Type} (l : List (String × α)) (k : String) (v : α)
    (h : k ∉ dkeys l) : dictInsert l k v = l ++ [(k, v)] := by
  induction l with
  | nil => rfl
  | cons e rest ih =>
    have he : e.1 ≠ k := by
      intro hk
      exact h (by simp [dkeys, hk])
    rw [dictInsert, if_neg he, ih (fun hm => h (by simp [dkeys] at hm ⊢; tauto))]
    rfl

theorem dictLookup_middle {α : Type} (pre rest : List (String × α)) (k : String) (v : α)
    (h : k ∉ dkeys pre) : dictLookup (pre ++ (k, v) :: rest) k = some v := by
  induction pre with
  | nil => simp [dictLookup]
  | cons e t ih =>
    have he : e.1 ≠ k := by
      intro hk
      exact h (by simp [dkeys, hk])
    rw [List.cons_append, dictLookup, if_neg he]
    exact ih (fun hm => h (by simp [dkeys] at hm ⊢; tauto))

theorem dictInsert_middle {α : Type} (pre rest : List (String × α)) (k : String) (v w : α)
    (h : k ∉ dkeys pre) : dictInsert (pre ++ (k, v) :: rest) k w = pre ++ (k, w) :: rest := by
  induction pre with
  | nil => simp [dictInsert]
  | cons e t ih =>
    have he : e.1 ≠ k := by
      intro hk
      exact h (by simp [dkeys, hk])
    rw [List.cons_append, dictInsert, if_neg he,
      ih (fun hm => h (by simp [dkeys] at hm ⊢; tauto))]
    rfl

/-- A node with its adjacency emptied, as the node-loading phase of
`load_from_file` recreates it. -/
def stripNode (n : CityNode) : CityNode := { n with neighbors := [] }

theorem loadNodes_eq : ∀ (l : List (String × CityNode)) (acc : CityGraph),
    (∀ kn ∈ l, kn.2.id = kn.1) → (∀ kn ∈ l, kn.2.name ≠ "") →
    (∀ kn ∈ l, kn.1 ∉ dkeys acc.nodes) → (l.map Prod.fst).Nodup →
    List.foldl
      (fun g kn => g.add_node (CityNode.init kn.2.id kn.2.lat kn.2.lng (some kn.2.name)))
      acc
      (l.map (fun kn =>
        (kn.1, ({ id := kn.2.id, lat := kn.2.lat, lng := kn.2.lng, name := kn.2.name } : NodeData)))) =
      { nodes := acc.nodes ++ l.map (fun kn => (kn.1, stripNode kn.2)) } := by
  intro l
  induction l with
  | nil => intro acc _ _ _ _; simp
  | cons kn t ih =>
    intro acc hid hname hfresh hnodup
    rw [List.map_cons, List.foldl_cons]
    have hstep : acc.add_node
        (CityNode.init kn.2.id kn.2.lat kn.2.lng (some kn.2.name)) =
        { nodes := acc.nodes ++ [(kn.1, stripNode kn.2)] } := by
      unfold CityGraph.add_node CityNode.init
      dsimp only
      rw [if_neg (hname kn (by simp))]
      have hkid : kn.2.id = kn.1 := hid kn (by simp)
      rw [hkid]
      rw [dictInsert_fresh _ _ _ (hfresh kn (by simp))]
      simp [stripNode, hkid]
    rw [hstep]
    rw [ih { nodes := acc.nodes ++ [(kn.1, stripNode kn.2)] }
      (fun x hx => hid x (by simp [hx]))
      (fun x hx => hname x (by simp [hx]))
      (fun x hx => by
        simp only [dkeys, List.map_append, List.mem_append] at *
        rintro (hm | hm)
        · exact hfresh x (by simp [hx]) (by simpa [dkeys] using hm)
        · simp at hm
          rcases List.pairwise_cons.mp hnodup with ⟨hk, _⟩
          exact hk x.1 (List.mem_map_of_mem Prod.fst hx) hm.symm)
      (List.Pairwise.sublist (List.sublist_cons_self _ _) hnodup)]
    simp

theorem dkeys_append_cons {α : Type} (pre rest : List (String × α)) (k : String) (v : α) :
    dkeys (pre ++ (k, v) :: rest) = dkeys pre ++ k :: dkeys rest := by
  simp [dkeys]

theorem loadEdges_node : ∀ (nbs done : List (String × (ℚ × ℚ)))
    (pre rest : List (String × CityNode)) (k : String) (n : CityNode),
    n.neighbors = done ++ nbs →
    k ∉ dkeys pre →
    ((done ++ nbs).map Prod.fst).Nodup →
    (∀ nb ∈ nbs, nb.1 ∈ dkeys pre ∨ nb.1 = k ∨ nb.1 ∈ dkeys rest) →
    List.foldl (fun g e => CityGraph.add_edge g e.efrom e.eto e.distance e.time false)
      { nodes := pre ++ (k, { n with neighbors := done }) :: rest }
      (nbs.map (fun nb =>
        ({ efrom := k, eto := nb.1, distance := nb.2.1, time := nb.2.2 } : EdgeData))) =
      { nodes := pre ++ (k, n) :: rest } := by
  intro nbs
  induction nbs with
  | nil =>
    intro done pre rest k n hnb _ _ _
    rw [List.append_nil] at hnb
    rw [List.map_nil, List.foldl_nil, ← hnb]
  | cons nb t ih =>
    intro done pre rest k n hnb hkpre hnodup hmem
    rw [List.map_cons, List.foldl_cons]
    have hlk : dictLookup (pre ++ (k, { n with neighbors := done }) :: rest) k =
        some { n with neighbors := done } := dictLookup_middle _ _ _ _ hkpre
    have hlnb : ∃ m, dictLookup (pre ++ (k, { n with neighbors := done }) :: rest) nb.1 =
        some m := by
      have hm : nb.1 ∈ dkeys (pre ++ (k, { n with neighbors := done }) :: rest) := by
        rw [dkeys_append_cons]
        rcases hmem nb (by simp) with hc | hc | hc
        · exact List.mem_append_left _ hc
        · exact List.mem_append_right _ (hc ▸ List.mem_cons_self _ _)
        · exact List.mem_append_right _ (List.mem_cons_of_mem _ hc)
      have := (dictLookup_isSome_iff _ _).mpr hm
      exact Option.isSome_iff_exists.mp this
    obtain ⟨m, hlnb⟩ := hlnb
    have hfreshnb : nb.1 ∉ dkeys done := by
      intro hmem2
      rw [List.map_append] at hnodup
      rcases (List.nodup_append.mp hnodup) with ⟨_, _, hdisj⟩
      exact hdisj (by simpa [dkeys] using hmem2) (by simp)
    have hstep : CityGraph.add_edge
        { nodes := pre ++ (k, { n with neighbors := done }) :: rest }
        k nb.1 nb.2.1 nb.2.2 false =
        { nodes := pre ++ (k, { n with neighbors := done ++ [(nb.1, nb.2)] }) :: rest } := by
      unfold CityGraph.add_edge
      dsimp only
      rw [hlk, hlnb]
      dsimp only
      rw [if_neg (by simp)]
      unfold CityNode.add_neighbor
      dsimp only
      rw [dictInsert_fresh _ _ _ hfreshnb, dictInsert_middle _ _ _ _ _ hkpre]
    rw [hstep]
    have hassoc : done ++ nb :: t = (done ++ [(nb.1, nb.2)]) ++ t := by simp
    rw [ih (done ++ [(nb.1, nb.2)]) pre rest k n (by rw [hnb, hassoc]) hkpre
      (by rw [← hassoc]; exact hnodup)
      (fun x hx => hmem x (by simp [hx]))]

theorem loadEdges_all : ∀ (post pre : List (String × CityNode)),
    ((pre ++ post).map Prod.fst).Nodup →
    (∀ kn ∈ post, (kn.2.neighbors.map Prod.fst).Nodup) →
    (∀ kn ∈ post, ∀ nb ∈ kn.2.neighbors, nb.1 ∈ dkeys (pre ++ post)) →
    List.foldl (fun g e => CityGraph.add_edge g e.efrom e.eto e.distance e.time false)
      { nodes := pre ++ post.map (fun kn => (kn.1, stripNode kn.2)) }
      (post.flatMap (fun kn => kn.2.neighbors.map (fun nb =>
        ({ efrom := kn.1, eto := nb.1, distance := nb.2.1, time := nb.2.2 } : EdgeData)))) =
      { nodes := pre ++ post } := by
  intro post
  induction post with
  | nil => intro pre _ _ _; simp
  | cons kn t ih =>
    intro pre hnodup hnbdup hwf
    rw [List.flatMap_cons, List.foldl_append]
    have hkpre : kn.1 ∉ dkeys pre := by
      rw [List.map_append] at hnodup
      rcases List.nodup_append.mp hnodup with ⟨_, _, hdisj⟩
      intro hm
      exact hdisj (by simpa [dkeys] using hm) (by simp)
    have hn1 := loadEdges_node kn.2.neighbors [] pre (t.map (fun x => (x.1, stripNode x.2)))
      kn.1 kn.2 (by simp) hkpre (by simpa using hnbdup kn (by simp))
      (fun nb hnb => by
        have hh := hwf kn (by simp) nb hnb
        rw [dkeys] at hh ⊢
        simp only [List.map_append, List.mem_append, List.map_cons, List.mem_cons] at hh
        rcases hh with hc | hc
        · exact Or.inl hc
        · rcases hc with hc | hc
          · exact Or.inr (Or.inl hc)
          · refine Or.inr (Or.inr ?_)
            rw [dkeys]
            simp only [List.map_map]
            simpa using hc)
    have hn1' : List.foldl
        (fun g e => CityGraph.add_edge g e.efrom e.eto e.distance e.time false)
        { nodes := pre ++ List.map (fun kn => (kn.1, stripNode kn.2)) (kn :: t) }
        (kn.2.neighbors.map (fun nb =>
          ({ efrom := kn.1, eto := nb.1, distance := nb.2.1, time := nb.2.2 } : EdgeData))) =
        { nodes := pre ++ (kn.1, kn.2) :: t.map (fun x => (x.1, stripNode x.2)) } := hn1
    rw [hn1']
    have hstep2 := ih (pre ++ [kn])
      (by simpa using hnodup)
      (fun x hx => hnbdup x (by simp [hx]))
      (fun x hx nb hnb => by
        have hh := hwf x (by simp [hx]) nb hnb
        simpa [dkeys] using hh)
    simp only [List.append_assoc, List.singleton_append] at hstep2
    exact hstep2

/-- C9: graph persistence round-trips exactly.  Under the class invariants
(dict keys consistent with node ids and duplicate-free, adjacency dicts
duplicate-free, adjacency references resolving, names nonempty — all
maintained by `add_node`/`add_edge`/`CityNode.__init__`), deserializing a
serialized graph reproduces it verbatim: the same node entries in the same
order and exactly the stored directed adjacency entries with their
`(distance, time)` weights, each inserted in one direction only
(no reverse edge is re-derived on load). -/
theorem save_load_roundtrip (g : CityGraph) (h1 : graphKeysConsistent g)
    (h2 : graphNodupKeys g) (h3 : graphNeighborsNodup g) (h4 : wfGraph g)
    (h5 : graphNamesNonempty g) :
    CityGraph.load_graph_data (CityGraph.save_graph_data g) = g := by
  unfold CityGraph.load_graph_data CityGraph.save_graph_data
  dsimp only
  rw [loadNodes_eq g.nodes CityGraph.init h1 h5 (fun kn _ => by simp [CityGraph.init, dkeys])
    h2]
  have hres := loadEdges_all g.nodes []
    (by simpa using h2)
    h3
    (fun kn hkn nb hnb => by
      have hh := (dictLookup_isSome_iff g.nodes nb.1).mp (h4 kn hkn nb hnb)
      simpa using hh)
  simp only [List.nil_append] at hres
  rw [show ({ nodes := CityGraph.init.nodes ++
      List.map (fun kn => (kn.1, stripNode kn.2)) g.nodes } : CityGraph) =
    { nodes := List.map (fun kn => (kn.1, stripNode kn.2)) g.nodes } from rfl]
  rw [hres]

/-- Two nodes joined by a single one-directional edge `A → B`. -/
def asymG : CityGraph :=
  ((CityGraph.init.add_node (CityNode.init "A" 0 0 none)).add_node
    (CityNode.init "B" 0 1 none)).add_edge "A" "B" 7 3 false

/-- Witness for C9 on the asymmetric graph `asymG`: the round trip is exact,
the stored edge `A → B` (weights 7 km, 3 min) survives in one direction
only, and no reverse edge `B → A` appears. -/
theorem save_load_roundtrip_witness :
    graphKeysConsistent asymG ∧ graphNodupKeys asymG ∧ graphNeighborsNodup asymG ∧
    wfGraph asymG ∧ graphNamesNonempty asymG ∧
    CityGraph.load_graph_data (CityGraph.save_graph_data asymG) = asymG ∧
    (dictLookup asymG.nodes "A").map CityNode.neighbors = some [("B", (7, 3))] ∧
    (dictLookup asymG.nodes "B").map CityNode.neighbors = some [] :=
  ⟨by decide, by decide, by decide, by decide, by decide,
   save_load_roundtrip asymG (by decide) (by decide) (by decide) (by decide) (by decide),
   by decide, by decide⟩

theorem dictLookup_mem {α : Type} (l : List (String × α)) (k : String) (v : α)
    (h : dictLookup l k = some v) : (k, v) ∈ l := by
  induction l with
  | nil => cases h
  | cons e rest ih =>
    by_cases he : e.1 = k
    · rw [dictLookup, if_pos he] at h
      injection h with h
      have hne : (k, v) = e := by
        rw [Prod.ext_iff]
        exact ⟨he.symm, h.symm⟩
      rw [hne]
      exact List.mem_cons_self _ _
    · rw [dictLookup, if_neg he] at h
      exact List.mem_cons_of_mem _ (ih h)

theorem popMin_mem (q : SearchQueue) (m : Pyf × String) (rest : SearchQueue)
    (h : popMin q = some (m, rest)) : m ∈ q ∧ rest = q.erase m := by
  match q with
  | [] => cases h
  | e :: t =>
    rw [popMin] at h
    simp only [Option.some.injEq, Prod.mk.injEq] at h
    obtain ⟨h1, h2⟩ := h
    subst h1
    refine ⟨?_, h2.symm⟩
    clear h2
    induction t generalizing e with
      | nil => simp
      | cons x xs ih =>
        rw [List.foldl_cons]
        by_cases hx : entryLtb x e
        · rw [if_pos hx]
          have := ih x
          simp at this ⊢
          tauto
        · rw [if_neg hx]
          have := ih e
          simp at this ⊢
          tauto

theorem dictLookup_map_isSome {α β : Type} (l : List (String × α))
    (f : String × α → β) (k : String) :
    (dictLookup (l.map (fun kn => (kn.1, f kn))) k).isSome =
      (dictLookup l k).isSome := by
  induction l with
  | nil => rfl
  | cons e t ih =>
    by_cases he : e.1 = k <;> simp [dictLookup, he, ih]

theorem dictLookup_map_val {α β : Type} (l : List (String × α))
    (f : String × α → β) (k : String) (v : β)
    (h : dictLookup (l.map (fun kn => (kn.1, f kn))) k = some v) :
    ∃ kn ∈ l, kn.1 = k ∧ v = f kn := by
  induction l with
  | nil => cases h
  | cons e t ih =>
    by_cases he : e.1 = k
    · rw [List.map_cons, dictLookup, if_pos he] at h
      injection h with h
      exact ⟨e, by simp, he, h.symm⟩
    · rw [List.map_cons, dictLookup, if_neg he] at h
      obtain ⟨kn, hkn, hk, hv⟩ := ih h
      exact ⟨kn, by simp [hkn], hk, hv⟩

/-- Scores dict covers every graph node id. -/
def ScoreCover (g : CityGraph) (d : ScoreMap) : Prop :=
  ∀ v, (dictLookup g.nodes v).isSome = true → (dictLookup d v).isSome = true

/-- Predecessor dict covers every graph node id. -/
def PredsCover (g : CityGraph) (p : PredMap) : Prop :=
  ∀ v, (dictLookup g.nodes v).isSome = true → (dictLookup p v).isSome = true

/-- Every node with a recorded predecessor is reachable from the start. -/
def PredsReach (g : CityGraph) (s : String) (p : PredMap) : Prop :=
  ∀ v u, dictLookup p v = some (some u) → Reach g s v

/-- Every queue entry names a reachable graph node. -/
def QueueInv (g : CityGraph) (s : String) (q : SearchQueue) : Prop :=
  ∀ e ∈ q, Reach g s e.2 ∧ (dictLookup g.nodes e.2).isSome = true

theorem QueueInv_of_sub (g : CityGraph) (s : String) (q q' : SearchQueue)
    (hsub : ∀ e ∈ q', e ∈ q) (h : QueueInv g s q) : QueueInv g s q' :=
  fun e he => h e (hsub e he)

theorem dijkstraRelax_inv (g : CityGraph) (s ct current : String) (node : CityNode)
    (hwf : wfGraph g) (hcur : Reach g s current)
    (hnode : dictLookup g.nodes current = some node) :
    ∀ (nbs : List (String × (ℚ × ℚ))) (d : ScoreMap) (p : PredMap) (q : SearchQueue),
    (∀ nb ∈ nbs, nb ∈ node.neighbors) →
    ScoreCover g d → PredsCover g p → PredsReach g s p → QueueInv g s q →
    ∃ d' p' q', dijkstraRelax ct current nbs (d, p, q) = .ok (d', p', q') ∧
      ScoreCover g d' ∧ PredsCover g p' ∧ PredsReach g s p' ∧ QueueInv g s q' := by
  intro nbs
  induction nbs with
  | nil =>
    intro d p q _ hd hp hr hq
    exact ⟨d, p, q, rfl, hd, hp, hr, hq⟩
  | cons nb t ih =>
    intro d p q hmem hd hp hr hq
    have hnbg : (dictLookup g.nodes nb.1).isSome = true :=
      hwf (current, node) (dictLookup_mem _ _ _ hnode) nb (hmem nb (by simp))
    have hdcur := hd current (by rw [hnode]; rfl)
    obtain ⟨dcur, hdcur⟩ := Option.isSome_iff_exists.mp hdcur
    have hdnb := hd nb.1 hnbg
    obtain ⟨dn, hdnb⟩ := Option.isSome_iff_exists.mp hdnb
    rw [dijkstraRelax]
    dsimp only
    rw [hdcur, hdnb]
    dsimp only
    by_cases hlt : Pyf.ltb (dcur.add (.q (costSel ct nb.2))) dn
    · rw [if_pos hlt]
      refine ih _ _ _ (fun x hx => hmem x (by simp [hx]))
        (fun v hv => dictLookup_insert_isSome _ _ _ _ (hd v hv))
        (fun v hv => dictLookup_insert_isSome _ _ _ _ (hp v hv))
        ?_ ?_
      · intro v u hv
        by_cases hveq : nb.1 = v
        · subst hveq
          exact Reach.step hcur hnode (by
            have : nb = (nb.1, nb.2) := rfl
            rw [← this]
            exact hmem nb (by simp))
        · rw [dictLookup_insert_ne _ _ _ _ hveq] at hv
          exact hr v u hv
      · intro e he
        rcases List.mem_append.mp he with he | he
        · exact hq e he
        · rcases List.mem_singleton.mp he with rfl
          exact ⟨Reach.step hcur hnode (by
            have : nb = (nb.1, nb.2) := rfl
            rw [← this]
            exact hmem nb (by simp)), hnbg⟩
    · rw [if_neg hlt]
      exact ih _ _ _ (fun x hx => hmem x (by simp [hx])) hd hp hr hq

theorem dijkstraLoop_inv (g : CityGraph) (s goal_id ct : String) (hwf : wfGraph g) :
    ∀ (fuel : ℕ) (d : ScoreMap) (p : PredMap) (vis : List String) (q : SearchQueue),
    ScoreCover g d → PredsCover g p → PredsReach g s p → QueueInv g s q →
    ∃ d' p', dijkstraLoop g goal_id ct fuel (d, p, vis, q) = .ok (d', p') ∧
      PredsCover g p' ∧ PredsReach g s p' := by
  intro fuel
  induction fuel with
  | zero =>
    intro d p vis q _ hp hr _
    exact ⟨d, p, rfl, hp, hr⟩
  | succ n ih =>
    intro d p vis q hd hp hr hq
    rw [dijkstraLoop]
    cases hpop : popMin q with
    | none => exact ⟨d, p, rfl, hp, hr⟩
    | some mr =>
      obtain ⟨⟨c, current⟩, rest⟩ := mr
      obtain ⟨hmemq, hrest⟩ := popMin_mem q (c, current) rest hpop
      have hqrest : QueueInv g s rest := by
        rw [hrest]
        exact QueueInv_of_sub g s q _ (fun e he => List.mem_of_mem_erase he) hq
      dsimp only
      by_cases hvis : current ∈ vis
      · rw [if_pos hvis]
        exact ih d p vis rest hd hp hr hqrest
      · rw [if_neg hvis]
        by_cases hgoal : current = goal_id
        · rw [if_pos hgoal]
          exact ⟨d, p, rfl, hp, hr⟩
        · rw [if_neg hgoal]
          cases hnode : g.get_node current with
          | none => exact ih d p _ rest hd hp hr hqrest
          | some node =>
            obtain ⟨hcur, _⟩ := hq (c, current) hmemq
            obtain ⟨d1, p1, q1, hrelax, hd1, hp1, hr1, hq1⟩ :=
              dijkstraRelax_inv g s ct current node hwf hcur hnode node.neighbors
                d p rest (fun x hx => hx) hd hp hr hqrest
            dsimp only
            rw [hrelax]
            exact ih d1 p1 _ q1 hd1 hp1 hr1 hq1

theorem dijkstra_unreachable (g : CityGraph) (s t ct : String) (hwf : wfGraph g)
    (hs : memGraph g s) (ht : memGraph g t) (hnr : ¬ Reach g s t)
    (hct : ct = "time" ∨ ct = "distance") :
    ∃ d' p', dijkstra_algorithm g s t ct = .ok (d', p') ∧
      dictLookup p' t = some none := by
  unfold dijkstra_algorithm
  rw [if_neg (by tauto)]
  have hd0 : ScoreCover g (dictInsert (CityGraph.get_nodes g |>.map
      (fun kn => (kn.1, Pyf.inf))) s (.q 0)) := by
    intro v hv
    apply dictLookup_insert_isSome
    rw [dictLookup_map_isSome]
    exact hv
  have hp0 : PredsCover g ((CityGraph.get_nodes g).map (fun kn => (kn.1, none))) := by
    intro v hv
    rw [dictLookup_map_isSome]
    exact hv
  have hr0 : PredsReach g s ((CityGraph.get_nodes g).map (fun kn => (kn.1, none))) := by
    intro v u hv
    obtain ⟨kn, _, _, hval⟩ := dictLookup_map_val _ _ _ _ hv
    cases hval
  have hq0 : QueueInv g s [(.q 0, s)] := by
    intro e he
    rcases List.mem_singleton.mp he with rfl
    exact ⟨Reach.refl, hs⟩
  obtain ⟨d', p', hloop, hpc, hpr⟩ :=
    dijkstraLoop_inv g s t ct hwf (searchFuel g) _ _ [] _ hd0 hp0 hr0 hq0
  refine ⟨d', p', hloop, ?_⟩
  have hsome := hpc t ht
  obtain ⟨pv, hpv⟩ := Option.isSome_iff_exists.mp hsome
  cases pv with
  | none => exact hpv
  | some u => exact absurd (hpr t u hpv) hnr

theorem aStarRelax_inv (hdist : ℚ × ℚ → ℚ × ℚ → ℚ) (g : CityGraph)
    (goal_node : CityNode) (s ct current : String) (node : CityNode)
    (hwf : wfGraph g) (hcur : Reach g s current)
    (hnode : dictLookup g.nodes current = some node) :
    ∀ (nbs : List (String × (ℚ × ℚ))) (gs fs : ScoreMap) (p : PredMap) (q : SearchQueue),
    (∀ nb ∈ nbs, nb ∈ node.neighbors) →
    ScoreCover g gs → PredsCover g p → PredsReach g s p → QueueInv g s q →
    ∃ gs' fs' p' q', aStarRelax hdist g goal_node ct current nbs (gs, fs, p, q) =
        .ok (gs', fs', p', q') ∧
      ScoreCover g gs' ∧ PredsCover g p' ∧ PredsReach g s p' ∧ QueueInv g s q' := by
  intro nbs
  induction nbs with
  | nil =>
    intro gs fs p q _ hd hp hr hq
    exact ⟨gs, fs, p, q, rfl, hd, hp, hr, hq⟩
  | cons nb t ih =>
    intro gs fs p q hmem hd hp hr hq
    have hnbg : (dictLookup g.nodes nb.1).isSome = true :=
      hwf (current, node) (dictLookup_mem _ _ _ hnode) nb (hmem nb (by simp))
    have hdcur := hd current (by rw [hnode]; rfl)
    obtain ⟨gcur, hdcur⟩ := Option.isSome_iff_exists.mp hdcur
    have hdnb := hd nb.1 hnbg
    obtain ⟨gn, hdnb⟩ := Option.isSome_iff_exists.mp hdnb
    obtain ⟨nbnode, hnbnode⟩ := Option.isSome_iff_exists.mp hnbg
    rw [aStarRelax]
    dsimp only
    rw [hdcur, hdnb]
    dsimp only
    by_cases hlt : Pyf.ltb (gcur.add (.q (costSel ct nb.2))) gn
    · rw [if_pos hlt]
      rw [show g.get_node nb.1 = some nbnode from hnbnode]
      dsimp only
      refine ih _ _ _ _ (fun x hx => hmem x (by simp [hx]))
        (fun v hv => dictLookup_insert_isSome _ _ _ _ (hd v hv))
        (fun v hv => dictLookup_insert_isSome _ _ _ _ (hp v hv))
        ?_ ?_
      · intro v u hv
        by_cases hveq : nb.1 = v
        · subst hveq
          exact Reach.step hcur hnode (by
            have heta : nb = (nb.1, nb.2) := rfl
            rw [← heta]
            exact hmem nb (by simp))
        · rw [dictLookup_insert_ne _ _ _ _ hveq] at hv
          exact hr v u hv
      · intro e he
        rcases List.mem_append.mp he with he | he
        · exact hq e he
        · rcases List.mem_singleton.mp he with rfl
          exact ⟨Reach.step hcur hnode (by
            have heta : nb = (nb.1, nb.2) := rfl
            rw [← heta]
            exact hmem nb (by simp)), hnbg⟩
    · rw [if_neg hlt]
      exact ih _ _ _ _ (fun x hx => hmem x (by simp [hx])) hd hp hr hq

theorem aStarLoop_inv (hdist : ℚ × ℚ → ℚ × ℚ → ℚ) (g : CityGraph)
    (goal_node : CityNode) (s goal_id ct : String) (hwf : wfGraph g) :
    ∀ (fuel : ℕ) (gs fs : ScoreMap) (p : PredMap) (vis : List String) (q : SearchQueue),
    ScoreCover g gs → PredsCover g p → PredsReach g s p → QueueInv g s q →
    ∃ gs' p', aStarLoop hdist g goal_node goal_id ct fuel (gs, fs, p, vis, q) =
        .ok (gs', p') ∧
      PredsCover g p' ∧ PredsReach g s p' := by
  intro fuel
  induction fuel with
  | zero =>
    intro gs fs p vis q _ hp hr _
    exact ⟨gs, p, rfl, hp, hr⟩
  | succ n ih =>
    intro gs fs p vis q hd hp hr hq
    rw [aStarLoop]
    cases hpop : popMin q with
    | none => exact ⟨gs, p, rfl, hp, hr⟩
    | some mr =>
      obtain ⟨⟨c, current⟩, rest⟩ := mr
      obtain ⟨hmemq, hrest⟩ := popMin_mem q (c, current) rest hpop
      have hqrest : QueueInv g s rest := by
        rw [hrest]
        exact QueueInv_of_sub g s q _ (fun e he => List.mem_of_mem_erase he) hq
      dsimp only
      by_cases hvis : current ∈ vis
      · rw [if_pos hvis]
        exact ih gs fs p vis rest hd hp hr hqrest
      · rw [if_neg hvis]
        by_cases hgoal : current = goal_id
        · rw [if_pos hgoal]
          exact ⟨gs, p, rfl, hp, hr⟩
        · rw [if_neg hgoal]
          cases hnode : g.get_node current with
          | none => exact ih gs fs p _ rest hd hp hr hqrest
          | some node =>
            obtain ⟨hcur, _⟩ := hq (c, current) hmemq
            obtain ⟨gs1, fs1, p1, q1, hrelax, hd1, hp1, hr1, hq1⟩ :=
              aStarRelax_inv hdist g goal_node s ct current node hwf hcur hnode
                node.neighbors gs fs p rest (fun x hx => hx) hd hp hr hqrest
            dsimp only
            rw [hrelax]
            exact ih gs1 fs1 p1 _ q1 hd1 hp1 hr1 hq1

theorem a_star_unreachable (hdist : ℚ × ℚ → ℚ × ℚ → ℚ) (g : CityGraph)
    (s t ct : String) (hwf : wfGraph g) (hs : memGraph g s) (ht : memGraph g t)
    (hnr : ¬ Reach g s t) (hct : ct = "time" ∨ ct = "distance") :
    ∃ gs' p', a_star_algorithm hdist g s t ct = .ok (gs', p') ∧
      dictLookup p' t = some none := by
  unfold a_star_algorithm
  rw [if_neg (by tauto)]
  obtain ⟨goal_node, hgn⟩ := Option.isSome_iff_exists.mp ht
  rw [show CityGraph.get_node g t = some goal_node from hgn]
  obtain ⟨start_node, hsn⟩ := Option.isSome_iff_exists.mp hs
  dsimp only
  rw [show CityGraph.get_node g s = some start_node from hsn]
  dsimp only
  have hd0 : ScoreCover g (dictInsert ((CityGraph.get_nodes g).map
      (fun kn => (kn.1, Pyf.inf))) s (.q 0)) := by
    intro v hv
    apply dictLookup_insert_isSome
    rw [dictLookup_map_isSome]
    exact hv
  have hp0 : PredsCover g ((CityGraph.get_nodes g).map (fun kn => (kn.1, none))) := by
    intro v hv
    rw [dictLookup_map_isSome]
    exact hv
  have hr0 : PredsReach g s ((CityGraph.get_nodes g).map (fun kn => (kn.1, none))) := by
    intro v u hv
    obtain ⟨kn, _, _, hval⟩ := dictLookup_map_val _ _ _ _ hv
    cases hval
  have hq0 : QueueInv g s
      [(.q (calculate_heuristic hdist start_node goal_node ct), s)] := by
    intro e he
    rcases List.mem_singleton.mp he with rfl
    exact ⟨Reach.refl, hs⟩
  obtain ⟨gs', p', hloop, hpc, hpr⟩ :=
    aStarLoop_inv hdist g goal_node s t ct hwf (searchFuel g) _ _ _ [] _
      hd0 hp0 hr0 hq0
  refine ⟨gs', p', hloop, ?_⟩
  have hsome := hpc t ht
  obtain ⟨pv, hpv⟩ := Option.isSome_iff_exists.mp hsome
  cases pv with
  | none => exact hpv
  | some u => exact absurd (hpr t u hpv) hnr

/-- C2 (amended): when the goal is a node unreachable from the start (start
and goal both in a well-formed graph, start ≠ goal), `find_optimal_path`
returns a normal success dict with an empty node list, zero totals and no
segments (tagged with the algorithm and cost type) — unreachability is
signalled only through this empty/zero success, never through an explicit
Unreachable error; the empty path from `reconstruct_path` is the only
marker. -/
theorem find_optimal_path_unreachable (hdist : ℚ × ℚ → ℚ × ℚ → ℚ) (g : CityGraph)
    (s t alg ct : String) (hwf : wfGraph g) (hs : memGraph g s) (ht : memGraph g t)
    (hst : s ≠ t) (hnr : ¬ Reach g s t)
    (halg : alg = "dijkstra" ∨ alg = "a_star")
    (hct : ct = "time" ∨ ct = "distance") :
    find_optimal_path hdist g s t alg ct =
      .ok [("nodes", .nodeList []), ("total_distance", .num (.q 0)),
           ("total_time", .num (.q 0)), ("segments", .segList []),
           ("algorithm", .str alg), ("cost_type", .str ct)] := by
  unfold find_optimal_path
  rw [if_neg (by tauto), if_neg (by tauto)]
  have hrecon : ∀ (p' : PredMap), dictLookup p' t = some none →
      reconstruct_path p' s t = .ok [] := by
    intro p' hp'
    unfold reconstruct_path
    rw [hp']
    dsimp only
    rw [if_pos ⟨rfl, hst⟩]
  by_cases hda : alg = "dijkstra"
  · rw [if_pos hda]
    obtain ⟨d', p', halgo, hpt⟩ := dijkstra_unreachable g s t ct hwf hs ht hnr hct
    rw [halgo]
    dsimp only
    rw [hrecon p' hpt]
    dsimp only
    rw [show get_path_details g [] =
      [("nodes", .nodeList []), ("total_distance", .num (.q 0)),
       ("total_time", .num (.q 0)), ("segments", .segList [])] from rfl]
    rfl
  · have hda' : alg = "a_star" := by tauto
    rw [if_neg hda]
    obtain ⟨gs', p', halgo, hpt⟩ := a_star_unreachable hdist g s t ct hwf hs ht hnr hct
    rw [halgo]
    dsimp only
    rw [hrecon p' hpt]
    dsimp only
    rw [show get_path_details g [] =
      [("nodes", .nodeList []), ("total_distance", .num (.q 0)),
       ("total_time", .num (.q 0)), ("segments", .segList [])] from rfl]
    rfl

theorem twoG_no_reach : ¬ Reach twoG "A" "B" := by
  have hAll : ∀ v, Reach twoG "A" v → v = "A" := by
    intro v h
    induction h with
    | refl => rfl
    | step hr hlk hmem ih =>
      rw [ih] at hlk
      rw [show dictLookup twoG.nodes "A" = some (CityNode.init "A" 0 0 none) from by decide]
        at hlk
      injection hlk with hlk
      rw [← hlk] at hmem
      simp [CityNode.init] at hmem
  intro h
  exact absurd (hAll "B" h) (by decide)

/-- Counterexample to C2 as stated: on the edgeless two-node graph, with
goal `"B"` unreachable from start `"A"`, `find_optimal_path` does not return
any explicit Unreachable result — it returns precisely the forbidden
success value with an empty node list and zero total distance and time. -/
theorem find_optimal_path_unreachable_cex :
    find_optimal_path flatDist twoG "A" "B" "dijkstra" "time" =
      .ok [("nodes", .nodeList []), ("total_distance", .num (.q 0)),
           ("total_time", .num (.q 0)), ("segments", .segList []),
           ("algorithm", .str "dijkstra"), ("cost_type", .str "time")] := by
  decide

/-- Witness for the amended C2 on the concrete two-node graph. -/
theorem find_optimal_path_unreachable_witness :
    wfGraph twoG ∧ memGraph twoG "A" ∧ memGraph twoG "B" ∧ "A" ≠ "B" ∧
    ¬ Reach twoG "A" "B" ∧
    find_optimal_path flatDist twoG "A" "B" "a_star" "time" =
      .ok [("nodes", .nodeList []), ("total_distance", .num (.q 0)),
           ("total_time", .num (.q 0)), ("segments", .segList []),
           ("algorithm", .str "a_star"), ("cost_type", .str "time")] :=
  ⟨by decide, by decide, by decide, by decide, twoG_no_reach,
    find_optimal_path_unreachable flatDist twoG "A" "B" "a_star" "time"
      (by decide) (by decide) (by decide) (by decide) twoG_no_reach
      (Or.inr rfl) (Or.inl rfl)⟩

theorem dictLookup_insert_isSome_iff {α : Type} (l : List (String × α)) (k k' : String)
    (v : α) : (dictLookup (dictInsert l k v) k').isSome = true ↔
      (k' = k ∨ (dictLookup l k').isSome = true) := by
  induction l with
  | nil =>
    by_cases hk : k = k' <;> simp [dictInsert, dictLookup, hk] <;> tauto
  | cons e t ih =>
    by_cases he : e.1 = k
    · by_cases he' : k = k' <;> simp [dictInsert, dictLookup, he, he'] <;> tauto
    · by_cases he' : e.1 = k'
      · have hkk : k' ≠ k := fun hh => he (he'.trans hh)
        simp [dictInsert, dictLookup, he, he', hkk]
      · simp [dictInsert, dictLookup, he, he', ih]

theorem Pyf.add_zero_right (x : Pyf) : x.add (.q 0) = x := by
  cases x with
  | q a =>
    show Pyf.q (qadd a 0) = Pyf.q a
    rw [qadd_eq, add_zero]
  | inf => rfl

theorem calculate_heuristic_zero (hdist : ℚ × ℚ → ℚ × ℚ → ℚ)
    (node goal_node : CityNode) (ct : String)
    (h : hdist (node.lat, node.lng) (goal_node.lat, goal_node.lng) = 0) :
    calculate_heuristic hdist node goal_node ct = 0 := by
  unfold calculate_heuristic
  dsimp only
  rw [h]
  split
  · rfl
  · rw [qmul_eq, zero_mul]

/-- The great-circle heuristic to the goal vanishes on every node (e.g. when
all nodes share the goal's coordinates). -/
def heurZero (hdist : ℚ × ℚ → ℚ × ℚ → ℚ) (g : CityGraph) (goal_node : CityNode) : Prop :=
  ∀ kn ∈ g.nodes, hdist (kn.2.lat, kn.2.lng) (goal_node.lat, goal_node.lng) = 0

/-- Every score-dict key names a graph node. -/
def ScoreKeys (g : CityGraph) (d : ScoreMap) : Prop :=
  ∀ v, (dictLookup d v).isSome = true → (dictLookup g.nodes v).isSome = true

theorem aStarRelax_sim (hdist : ℚ × ℚ → ℚ × ℚ → ℚ) (g : CityGraph)
    (goal_node : CityNode) (ct current : String)
    (hz : heurZero hdist g goal_node) :
    ∀ (nbs : List (String × (ℚ × ℚ))) (gs fs : ScoreMap) (p : PredMap) (q : SearchQueue),
    ScoreKeys g gs →
    ((∀ e, dijkstraRelax ct current nbs (gs, p, q) = .error e →
        aStarRelax hdist g goal_node ct current nbs (gs, fs, p, q) = .error e) ∧
     (∀ d' p' q', dijkstraRelax ct current nbs (gs, p, q) = .ok (d', p', q') →
        ∃ fs', aStarRelax hdist g goal_node ct current nbs (gs, fs, p, q) =
            .ok (d', fs', p', q') ∧ ScoreKeys g d')) := by
  intro nbs
  induction nbs with
  | nil =>
    intro gs fs p q hkeys
    constructor
    · intro e he
      cases he
    · intro d' p' q' hok
      rw [dijkstraRelax] at hok
      injection hok with hok
      rw [Prod.ext_iff] at hok
      obtain ⟨h1, hok⟩ := hok
      rw [Prod.ext_iff] at hok
      obtain ⟨h2, h3⟩ := hok
      subst h1; subst h2; subst h3
      exact ⟨fs, rfl, hkeys⟩
  | cons nb t ih =>
    intro gs fs p q hkeys
    rw [dijkstraRelax, aStarRelax]
    dsimp only
    cases hcur : dictLookup gs current with
    | none =>
      refine ⟨fun e he => ?_, fun d' p' q' hok => ?_⟩
      · injection he with he
        rw [← he]
      · cases hok
    | some gcur =>
      dsimp only
      cases hnb : dictLookup gs nb.1 with
      | none =>
        refine ⟨fun e he => ?_, fun d' p' q' hok => ?_⟩
        · injection he with he
          rw [← he]
        · cases hok
      | some gn =>
        dsimp only
        by_cases hlt : Pyf.ltb (gcur.add (.q (costSel ct nb.2))) gn
        · rw [if_pos hlt, if_pos hlt]
          have hnbg : (dictLookup g.nodes nb.1).isSome = true :=
            hkeys nb.1 (by rw [hnb]; rfl)
          obtain ⟨nbnode, hnbnode⟩ := Option.isSome_iff_exists.mp hnbg
          rw [show CityGraph.get_node g nb.1 = some nbnode from hnbnode]
          dsimp only
          have hz0 : calculate_heuristic hdist nbnode goal_node ct = 0 :=
            calculate_heuristic_zero hdist nbnode goal_node ct
              (hz (nb.1, nbnode) (dictLookup_mem _ _ _ hnbnode))
          rw [hz0, Pyf.add_zero_right]
          have hkeys' : ScoreKeys g (dictInsert gs nb.1
              (gcur.add (.q (costSel ct nb.2)))) := by
            intro v hv
            rcases (dictLookup_insert_isSome_iff _ _ _ _).mp hv with hv | hv
            · subst hv; exact hnbg
            · exact hkeys v hv
          exact ih _ _ _ _ hkeys'
        · rw [if_neg hlt, if_neg hlt]
          exact ih _ _ _ _ hkeys

theorem aStarLoop_sim (hdist : ℚ × ℚ → ℚ × ℚ → ℚ) (g : CityGraph)
    (goal_node : CityNode) (goal_id ct : String)
    (hz : heurZero hdist g goal_node) :
    ∀ (fuel : ℕ) (gs fs : ScoreMap) (p : PredMap) (vis : List String) (q : SearchQueue),
    ScoreKeys g gs →
    aStarLoop hdist g goal_node goal_id ct fuel (gs, fs, p, vis, q) =
      dijkstraLoop g goal_id ct fuel (gs, p, vis, q) := by
  intro fuel
  induction fuel with
  | zero => intro gs fs p vis q _; rfl
  | succ n ih =>
    intro gs fs p vis q hkeys
    rw [aStarLoop, dijkstraLoop]
    cases hpop : popMin q with
    | none => rfl
    | some mr =>
      obtain ⟨⟨c, current⟩, rest⟩ := mr
      dsimp only
      by_cases hvis : current ∈ vis
      · rw [if_pos hvis, if_pos hvis]
        exact ih gs fs p vis rest hkeys
      · rw [if_neg hvis, if_neg hvis]
        by_cases hgoal : current = goal_id
        · rw [if_pos hgoal, if_pos hgoal]
        · rw [if_neg hgoal, if_neg hgoal]
          cases hnode : g.get_node current with
          | none => exact ih gs fs p _ rest hkeys
          | some node =>
            dsimp only
            obtain ⟨herr, hok⟩ := aStarRelax_sim hdist g goal_node ct current hz
              node.neighbors gs fs p rest hkeys
            cases hrelax : dijkstraRelax ct current node.neighbors (gs, p, rest) with
            | error e => rw [herr e hrelax]
            | ok st =>
              obtain ⟨d', p', q'⟩ := st
              obtain ⟨fs', hrw, hkeys'⟩ := hok d' p' q' hrelax
              rw [hrw]
              exact ih d' fs' p' _ q' hkeys'

theorem a_star_algorithm_hzero_eq (hdist : ℚ × ℚ → ℚ × ℚ → ℚ) (g : CityGraph)
    (s t ct : String) (hs : memGraph g s) (ht : memGraph g t)
    (hz : ∀ gn, dictLookup g.nodes t = some gn → heurZero hdist g gn) :
    a_star_algorithm hdist g s t ct = dijkstra_algorithm g s t ct := by
  unfold a_star_algorithm dijkstra_algorithm
  by_cases hct : ¬(ct = "time" ∨ ct = "distance")
  · rw [if_pos hct, if_pos hct]
  · rw [if_neg hct, if_neg hct]
    obtain ⟨goal_node, hgn⟩ := Option.isSome_iff_exists.mp ht
    rw [show CityGraph.get_node g t = some goal_node from hgn]
    obtain ⟨start_node, hsn⟩ := Option.isSome_iff_exists.mp hs
    dsimp only
    rw [show CityGraph.get_node g s = some start_node from hsn]
    dsimp only
    have hz' := hz goal_node hgn
    have hz0 : calculate_heuristic hdist start_node goal_node ct = 0 :=
      calculate_heuristic_zero hdist start_node goal_node ct
        (hz' (s, start_node) (dictLookup_mem _ _ _ hsn))
    rw [hz0]
    have hkeys0 : ScoreKeys g (dictInsert ((CityGraph.get_nodes g).map
        (fun kn => (kn.1, Pyf.inf))) s (.q 0)) := by
      intro v hv
      rcases (dictLookup_insert_isSome_iff _ _ _ _).mp hv with hv | hv
      · subst hv; exact hs
      · rw [dictLookup_map_isSome] at hv
        exact hv
    exact aStarLoop_sim hdist g goal_node t ct hz' (searchFuel g) _ _ _ [] _ hkeys0

/-- Projection of a pathfinding result at a dict key (propagating a raised
exception). -/
def fopKey (r : Except PyErr (List (String × PyVal))) (k : String) :
    Except PyErr (Option PyVal) := r.map (fun d => dictLookup d k)

/-- C5 (amended): Dijkstra and A* agree — identical node lists, segments and
totals in both cost dimensions — whenever the great-circle heuristic to the
goal vanishes on every node (for instance when all nodes carry the goal's
coordinates), because A* then degenerates to Dijkstra entry for entry.  In
general the heuristic (and in particular its ×2 time scaling) can
overestimate the true remaining cost, and A* may then return a strictly
costlier path than Dijkstra, as the counterexample records. -/
theorem find_optimal_path_algorithms_agree_hzero (hdist : ℚ × ℚ → ℚ × ℚ → ℚ)
    (g : CityGraph) (s t ct : String) (hs : memGraph g s) (ht : memGraph g t)
    (hz : ∀ gn, dictLookup g.nodes t = some gn → heurZero hdist g gn) :
    fopKey (find_optimal_path hdist g s t "a_star" ct) "nodes" =
      fopKey (find_optimal_path hdist g s t "dijkstra" ct) "nodes" ∧
    fopKey (find_optimal_path hdist g s t "a_star" ct) "total_distance" =
      fopKey (find_optimal_path hdist g s t "dijkstra" ct) "total_distance" ∧
    fopKey (find_optimal_path hdist g s t "a_star" ct) "total_time" =
      fopKey (find_optimal_path hdist g s t "dijkstra" ct) "total_time" ∧
    fopKey (find_optimal_path hdist g s t "a_star" ct) "segments" =
      fopKey (find_optimal_path hdist g s t "dijkstra" ct) "segments" := by
  have key : ∀ k : String, k ≠ "algorithm" → k ≠ "cost_type" →
      fopKey (find_optimal_path hdist g s t "a_star" ct) k =
        fopKey (find_optimal_path hdist g s t "dijkstra" ct) k := by
    intro k hka hkc
    unfold find_optimal_path
    rw [if_neg (show ¬¬(("a_star" : String) = "dijkstra" ∨ ("a_star" : String) = "a_star")
      from by decide)]
    rw [if_neg (show ¬¬(("dijkstra" : String) = "dijkstra" ∨ ("dijkstra" : String) = "a_star")
      from by decide)]
    rw [show (if ("a_star" : String) = "dijkstra" then dijkstra_algorithm g s t ct
        else a_star_algorithm hdist g s t ct) = a_star_algorithm hdist g s t ct
      from by rw [if_neg (show ¬("a_star" : String) = "dijkstra" from by decide)]]
    rw [show (if ("dijkstra" : String) = "dijkstra" then dijkstra_algorithm g s t ct
        else a_star_algorithm hdist g s t ct) = dijkstra_algorithm g s t ct
      from by rw [if_pos rfl]]
    by_cases hct : ¬(ct = "time" ∨ ct = "distance")
    · rw [if_pos hct, if_pos hct]
    · rw [if_neg hct, if_neg hct]
      rw [a_star_algorithm_hzero_eq hdist g s t ct hs ht hz]
      cases halgo : dijkstra_algorithm g s t ct with
      | error e => rfl
      | ok dp =>
        obtain ⟨d', p'⟩ := dp
        dsimp only
        cases hrec : reconstruct_path p' s t with
        | error e => rfl
        | ok path =>
          dsimp only [fopKey, Except.map]
          rw [dictLookup_insert_ne _ _ _ _ (fun h => hkc h.symm),
            dictLookup_insert_ne _ _ _ _ (fun h => hka h.symm),
            dictLookup_insert_ne _ _ _ _ (fun h => hkc h.symm),
            dictLookup_insert_ne _ _ _ _ (fun h => hka h.symm)]
  exact ⟨key "nodes" (by decide) (by decide),
    key "total_distance" (by decide) (by decide),
    key "total_time" (by decide) (by decide),
    key "segments" (by decide) (by decide)⟩

/-- All nodes at the same coordinates: the great-circle heuristic vanishes. -/
def flatTwoG : CityGraph :=
  ((CityGraph.init.add_node (CityNode.init "A" 1 2 none)).add_node
    (CityNode.init "B" 1 2 none)).add_edge "A" "B" 3 4 true

instance heurZeroDec (hdist : ℚ × ℚ → ℚ × ℚ → ℚ) (g : CityGraph) (gn : CityNode) :
    Decidable (heurZero hdist g gn) :=
  List.decidableBAll _ g.nodes

theorem flatTwoG_hzero : ∀ gn, dictLookup flatTwoG.nodes "B" = some gn →
    heurZero flatDist flatTwoG gn := by
  intro gn hgn
  rw [show dictLookup flatTwoG.nodes "B" =
    some { id := "B", lat := 1, lng := 2, name := "Node B",
           neighbors := [("A", (3, 4))] } from by decide] at hgn
  injection hgn with h
  rw [← h]
  decide

/-- Witness for the amended C5 on a two-node graph whose nodes share
coordinates, so the `flatDist` heuristic vanishes. -/
theorem find_optimal_path_algorithms_agree_hzero_witness :
    memGraph flatTwoG "A" ∧ memGraph flatTwoG "B" ∧
    fopKey (find_optimal_path flatDist flatTwoG "A" "B" "a_star" "time") "total_time" =
      fopKey (find_optimal_path flatDist flatTwoG "A" "B" "dijkstra" "time") "total_time" :=
  ⟨by decide, by decide,
    (find_optimal_path_algorithms_agree_hzero flatDist flatTwoG "A" "B" "time"
      (by decide) (by decide) flatTwoG_hzero).2.2.1⟩

/-- Three nodes with a direct 10-minute edge `A → C` and a 2-minute detour
through `B`; `B` lies far away, so its ×2-scaled time heuristic towards `C`
is enormous. -/
def cexG : CityGraph :=
  let g0 := ((CityGraph.init.add_node (CityNode.init "A" 0 0 none)).add_node
    (CityNode.init "B" 0 100 none)).add_node (CityNode.init "C" 0 1 none)
  ((g0.add_edge "A" "C" 5 10 true).add_edge "A" "B" 1 1 true).add_edge "B" "C" 1 1 true

/-- The stored node record of `"A"` in `cexG`. -/
def cexNodeA : CityNode :=
  { id := "A", lat := 0, lng := 0, name := "Node A",
    neighbors := [("C", (5, 10)), ("B", (1, 1))] }

theorem cexG_reach_AC : Reach cexG "A" "C" := by
  have hA : dictLookup cexG.nodes "A" = some cexNodeA := by decide
  exact @Reach.step cexG "A" "A" "C" cexNodeA (5, 10) Reach.refl hA (by decide)

/-- Counterexample to C5 as stated: on `cexG` — non-negative edge costs,
goal `"C"` reachable from `"A"`, cost type `time` — Dijkstra finds the
optimal 2-minute path through `B` while A*, misled by the overestimating
scaled heuristic at `B`, returns the direct 10-minute edge: the two total
costs differ by far more than any floating-point tolerance. -/
theorem find_optimal_path_algorithms_disagree_cex :
    nonnegGraph cexG ∧ Reach cexG "A" "C" ∧
    fopKey (find_optimal_path flatDist cexG "A" "C" "dijkstra" "time") "total_time" =
      .ok (some (.num (.q 2))) ∧
    fopKey (find_optimal_path flatDist cexG "A" "C" "a_star" "time") "total_time" =
      .ok (some (.num (.q 10))) ∧
    fopKey (find_optimal_path flatDist cexG "A" "C" "a_star" "time") "total_time" ≠
      fopKey (find_optimal_path flatDist cexG "A" "C" "dijkstra" "time") "total_time" :=
  ⟨by decide, cexG_reach_AC, by decide, by decide, by decide⟩

/-- The result dict of `get_path_details` never carries a `"predecessors"`
entry: both branches build a literal four-key dict. -/
theorem get_path_details_no_predecessors (g : CityGraph) (path : List String) :
    dictLookup (get_path_details g path) "predecessors" = none := by
  unfold get_path_details
  split <;> simp [dictLookup]

/-- Any success dict of `find_optimal_path` carries exactly the keys
`nodes`, `total_distance`, `total_time`, `segments`, `algorithm` and
`cost_type`; in particular a `"predecessors"` lookup misses. -/
theorem find_optimal_path_no_predecessors (hdist : ℚ × ℚ → ℚ × ℚ → ℚ)
    (g : CityGraph) (s t alg ct : String) (d : List (String × PyVal))
    (h : find_optimal_path hdist g s t alg ct = .ok d) :
    dictLookup d "predecessors" = none := by
  unfold find_optimal_path at h
  split at h
  · simp at h
  · split at h
    · simp at h
    · split at h
      · simp at h
      · split at h
        · simp at h
        · simp only [Except.ok.injEq] at h
          subst h
          rw [dictLookup_insert_ne _ _ _ _ (by decide),
            dictLookup_insert_ne _ _ _ _ (by decide)]
          exact get_path_details_no_predecessors g _

/-- C1: for every ride request and registered AVAILABLE driver for which the
two pathfinding calls and the fare estimation succeed, `confirm_ride` raises
an uncaught `KeyError` on the subscript `driver_to_pickup['predecessors']`:
the dict returned by `find_optimal_path` has only the keys `nodes`,
`total_distance`, `total_time`, `segments`, `algorithm` and `cost_type`.
The simulator returned at the exception is the input simulator verbatim, so
no ActiveRide is added to `active_rides` and the driver is never marked
busy by `confirm_ride`. -/
theorem confirm_ride_keyerror (hdist : ℚ × ℚ → ℚ × ℚ → ℚ) (now : ℚ)
    (current_hour : ℤ) (sim : RideSimulator) (request : RideRequest)
    (driver_id : String) (driver : Driver) (d1 d2 : List (String × PyVal)) (fare : Pyf)
    (hlk : dictLookup sim.driver_matcher.drivers driver_id = some driver)
    (hav : driver.status = DriverStatus.available)
    (hp1 : find_optimal_path hdist sim.city_graph driver.nearest_node_id
      request.pickup_node_id "a_star" "time" = .ok d1)
    (hp2 : find_optimal_path hdist sim.city_graph request.pickup_node_id
      request.dropoff_node_id "a_star" "time" = .ok d2)
    (hf : DriverMatcher.estimate_fare hdist current_hour sim.driver_matcher request d2 =
      .ok fare) :
    RideSimulator.confirm_ride hdist now current_hour sim request driver_id =
      (sim, .error (.keyError "predecessors")) := by
  have hpd : pdPreds d1 "predecessors" = .error (.keyError "predecessors") := by
    unfold pdPreds
    rw [find_optimal_path_no_predecessors hdist sim.city_graph _ _ _ _ d1 hp1]
  unfold RideSimulator.confirm_ride
  rw [hlk]
  dsimp only
  rw [if_neg (show ¬driver.status ≠ DriverStatus.available from by rw [hav]; simp)]
  rw [hp1]
  dsimp only
  rw [hp2]
  dsimp only
  rw [hf]
  dsimp only
  rw [hpd]

/-- Concrete driver registered as AVAILABLE at node `"A"`. -/
def availDriver : Driver :=
  { id := "d2", name := "Driver Two", current_location := (0, 0),
    nearest_node_id := "A", status := .available, vehicle_type := "sedan",
    rating := mkRat 9 2, total_trips := 10 }

/-- Concrete simulator state holding `availDriver` on the two-node graph. -/
def simC1 : RideSimulator :=
  { city_graph := twoG,
    driver_matcher := { city_graph := twoG, drivers := [("d2", availDriver)] },
    active_rides := [], simulation_speed := 10 }

/-- The concrete dict both pathfinding calls of the C1 witness return (empty
path: pickup equals the driver node, dropoff unreachable). -/
def zeroPathDict : List (String × PyVal) :=
  [("nodes", .nodeList []), ("total_distance", .num (.q 0)),
   ("total_time", .num (.q 0)), ("segments", .segList []),
   ("algorithm", .str "a_star"), ("cost_type", .str "time")]

/-- Witness for C1: on the concrete simulator `simC1`, whose only driver is
available, `confirm_ride` returns the `KeyError 'predecessors'` with the
state unchanged. -/
theorem confirm_ride_keyerror_witness :
    dictLookup simC1.driver_matcher.drivers "d2" = some availDriver ∧
    availDriver.status = DriverStatus.available ∧
    RideSimulator.confirm_ride flatDist 0 12 simC1 reqAB "d2" =
      (simC1, .error (.keyError "predecessors")) :=
  ⟨by decide, rfl,
    confirm_ride_keyerror flatDist 0 12 simC1 reqAB "d2" availDriver
      zeroPathDict zeroPathDict (.q 50)
      (by decide) rfl (by decide) (by decide) (by decide)⟩
